import Mathlib

/-!
# Vita3K: the SELF decrypt dialog (`vita3k/gui/src/self_decrypt_dialog.cpp`)

A shallow embedding of `gui::draw_self_decrypt_dialog`.  The C++ function is
called once per rendered frame; its `static` locals carry the workflow from
one frame to the next.  Here the statics are the record `Ctl`, one call of the
function is `draw_self_decrypt_dialog`, and everything the function obtains
from its collaborators during one call (the native file pickers, the bytes of
the chosen file, the classifier's answers, the license loader, the decryptor,
the popup layer and the OK button) is the record `FrameInput`.  Calls to the
collaborators are recorded, with their arguments, as a list of `Event`s.

The dialog flag `gui.file_menu.self_decrypt_dialog` belongs to the caller: a
frame receives its value on entry and returns its value on exit.

What is taken for granted about the collaborators, none of which is part of
the function: `open_file` stores a path only when it returns `SUCCESS`;
`BeginPopupModal` may clear the dialog flag but never sets it, and returns
`true` only without touching it.  `fs::create_directories` may throw: the
function has no handler, so the exception ends the call with the statics as
they were assigned before it, and the caller may go on drawing frames.
What `open_license` leaves in the license when it fails is an input of the
frame; the theorems that depend on it say so through `FailedLicenseKeyEmpty`.
-/

namespace Vita3K

/-- A byte sequence (`std::vector<uint8_t>`). -/
abbrev Bytes := List (Fin 256)

/-- A filesystem path as its sequence of components; the empty path is `[]`. -/
abbrev Path := List String

/-- The last component of a path (`path::filename().string()`); empty for the empty path. -/
def Path.filename (p : Path) : String := p.getLast?.getD ""

/-- The path without its last component (`path::parent_path()`). -/
def Path.parent_path (p : Path) : Path := p.dropLast

/-- Appending one component (`operator/` with a relative right operand). -/
def Path.join (p : Path) (name : String) : Path := p ++ [name]

/-- The characters of a file name before its last dot; the whole name when it
has no dot, when the only dot leads the name, and for the names `.` and `..`. -/
def stem_chars (cs : List Char) : List Char :=
  if cs = ['.'] ∨ cs = ['.', '.'] then cs
  else if '.' ∈ cs then
    let front := ((cs.reverse.dropWhile (fun c => c != '.')).drop 1).reverse
    if front = [] then cs else front
  else cs

/-- The file name without its extension, as a (relative, one-component) path
(`path::stem()`); the empty path when there is no file name. -/
def Path.stem (p : Path) : Path :=
  match p.getLast? with
  | none => []
  | some name => if name = "" then [] else [String.mk (stem_chars name.toList)]

/-- Outcome of a native file picker: `host::dialog::filesystem::Result`. -/
inductive Result where
  | SUCCESS
  | ERROR
  | CANCEL
  deriving DecidableEq, Repr

/-- The workflow state: `enum class State` of the dialog. -/
inductive State where
  | UNDEFINED
  | DECRYPT
  | NO_ENCRYPTED
  | SUCCESS
  | FAIL
  deriving DecidableEq, Repr

/-- Modelled from the spec: the declaration of `SceNpDrmLicense`
(`packages/sce_types.h`) is missing.  The license is its key material (`key`,
the only field the dialog reads) and the rest of the record; the
value-initialised license (`license = {}`) has empty key material. -/
structure SceNpDrmLicense where
  key : Bytes
  body : Bytes
  deriving DecidableEq, Repr

/-- The value-initialised license, `SceNpDrmLicense{}`. -/
def SceNpDrmLicense.zero : SceNpDrmLicense := { key := [], body := [] }

/-- What `ImGui::BeginPopupModal("decrypt", &gui.file_menu.self_decrypt_dialog, ..)`
did in a frame: it returned `true` (`shown`), it returned `false` and left the
flag alone (`hidden`), or it returned `false` and cleared the flag (`closed`). -/
inductive PopupResult where
  | shown
  | hidden
  | closed
  deriving DecidableEq, Repr

/-- What the persistence step (source lines 114-117) did in a frame that
reaches it: `fs::create_directories` threw (`directory_error`); it returned
and opening or writing `outfile` failed (`write_failed`); it returned and the
write succeeded (`written`). -/
inductive Persistence where
  | written
  | write_failed
  | directory_error
  deriving DecidableEq, Repr

/-- The `static` locals of `draw_self_decrypt_dialog`. -/
structure Ctl where
  self_path : Path
  license_path : Path
  title : String
  draw_file_dialog : Bool
  state : State
  fself : Bytes
  license : SceNpDrmLicense
  self_file : String
  decrypted_path : Path
  deriving DecidableEq, Repr

/-- The statics as initialised on the first call. -/
def Ctl.init : Ctl :=
  { self_path := []
    license_path := []
    title := ""
    draw_file_dialog := true
    state := State.UNDEFINED
    fself := []
    license := SceNpDrmLicense.zero
    self_file := ""
    decrypted_path := [] }

/-- Everything one call of `draw_self_decrypt_dialog` receives from outside:
the arguments `gui` / `emuenv` and the answers of the collaborators it calls.
An answer is read only if the call is made in that frame. -/
structure FrameInput where
  /-- The flag `gui.file_menu.self_decrypt_dialog` on entry. -/
  self_decrypt_dialog : Bool
  /-- The cache root, `emuenv.cache_path`. -/
  cache_path : Path
  /-- Result of `open_file(self_path, ..)`. -/
  self_result : Result
  /-- The path `open_file` stores in `self_path` when it succeeds. -/
  self_chosen : Path
  /-- The bytes read from `infile`. -/
  infile : Bytes
  /-- Answer of `is_fself_encrypted(fself)`. -/
  is_fself_encrypted : Bool
  /-- Answer of `is_fself_app(fself)`. -/
  is_fself_app : Bool
  /-- Result of `open_file(license_path, ..)`. -/
  license_result : Result
  /-- The path `open_file` stores in `license_path` when it succeeds. -/
  license_chosen : Path
  /-- Return value of `open_license(license_path, license)`. -/
  open_license : Bool
  /-- The content of `license` after `open_license` returned. -/
  license_buf : SceNpDrmLicense
  /-- What `BeginPopupModal` did. -/
  popup : PopupResult
  /-- Return value of `decrypt_fself(fself, license.key)`. -/
  decrypt_fself : Bytes
  /-- What the persistence step did. -/
  persistence : Persistence
  /-- Return value of `ImGui::Button(common["ok"], ..)`. -/
  ok_button : Bool
  deriving DecidableEq, Repr

/-- Whether opening `outfile` and writing to it succeeded. -/
def FrameInput.outfile_ok (i : FrameInput) : Bool :=
  i.persistence == Persistence.written

/-- A call the dialog makes to one of its collaborators, with its arguments,
or the exception that ends the call (`filesystem_error`). -/
inductive Event where
  | open_file_self
  | read_infile (p : Path)
  | is_fself_encrypted (b : Bytes)
  | is_fself_app (b : Bytes)
  | open_file_license
  | open_license (p : Path)
  | log_error
  | log_critical
  | open_popup
  | decrypt_fself (b : Bytes) (key : Bytes)
  | create_directories (p : Path)
  | outfile_write (p : Path) (b : Bytes) (ok : Bool)
  | filesystem_error
  deriving DecidableEq, Repr

/-- The statics, the dialog flag and the calls made, after (part of) a frame. -/
structure Frame where
  ctl : Ctl
  dialog : Bool
  events : List Event
  deriving DecidableEq, Repr

/-- The license branch of the acquisition step (source lines 60-72), entered
for an encrypted application package.  `s` already holds the chosen file. -/
def acquire_license (i : FrameInput) (s : Ctl) : Ctl × List Event :=
  match i.license_result with
  | Result.SUCCESS =>
    let s := { s with license_path := i.license_chosen, license := i.license_buf }
    if i.open_license then
      ({ s with state := State.DECRYPT },
        [Event.open_file_license, Event.open_license i.license_chosen, Event.open_popup])
    else
      ({ s with state := State.FAIL },
        [Event.open_file_license, Event.open_license i.license_chosen, Event.log_error,
          Event.open_popup])
  | Result.ERROR =>
    ({ s with state := State.UNDEFINED }, [Event.open_file_license, Event.log_critical])
  | Result.CANCEL =>
    ({ s with state := State.UNDEFINED }, [Event.open_file_license])

/-- The acquisition step: source lines 51-89. -/
def acquire (i : FrameInput) (s : Ctl) : Frame :=
  if s.draw_file_dialog then
    match i.self_result with
    | Result.SUCCESS =>
      let s := { s with
        draw_file_dialog := false
        self_path := i.self_chosen
        self_file := Path.filename i.self_chosen
        fself := i.infile }
      let pre := [Event.open_file_self, Event.read_infile i.self_chosen,
        Event.is_fself_encrypted i.infile]
      if i.is_fself_encrypted then
        if i.is_fself_app then
          let r := acquire_license i s
          { ctl := r.1, dialog := i.self_decrypt_dialog,
            events := pre ++ Event.is_fself_app i.infile :: r.2 }
        else
          { ctl := { s with state := State.DECRYPT }, dialog := i.self_decrypt_dialog,
            events := pre ++ [Event.is_fself_app i.infile, Event.open_popup] }
      else
        { ctl := { s with state := State.NO_ENCRYPTED, fself := [] },
          dialog := i.self_decrypt_dialog,
          events := pre ++ [Event.open_popup] }
    | Result.CANCEL =>
      { ctl := { s with draw_file_dialog := true }, dialog := false,
        events := [Event.open_file_self] }
    | Result.ERROR =>
      { ctl := { s with draw_file_dialog := true }, dialog := false,
        events := [Event.open_file_self, Event.log_error] }
  else
    { ctl := s, dialog := i.self_decrypt_dialog, events := [] }

/-- The output path of a run: `emuenv.cache_path / "decrypted_self" / self_file`. -/
def output_path (cache_path : Path) (self_file : String) : Path :=
  (cache_path.join "decrypted_self").join self_file

/-- The decrypt step: `case State::DECRYPT` (source lines 110-125).  When
`fs::create_directories` throws (line 114), `fself` and `decrypted_path` have
been assigned (lines 111, 113) and nothing after line 114 runs. -/
def decrypt_step (i : FrameInput) (s : Ctl) : Ctl × List Event :=
  let call := Event.decrypt_fself s.fself s.license.key
  if i.decrypt_fself ≠ [] then
    let p := output_path i.cache_path s.self_file
    if i.persistence = Persistence.directory_error then
      ({ s with fself := i.decrypt_fself, decrypted_path := p },
        [call, Event.create_directories p.stem, Event.filesystem_error])
    else
      ({ s with decrypted_path := p, state := State.SUCCESS, fself := [],
                license := SceNpDrmLicense.zero },
        [call, Event.create_directories p.stem,
          Event.outfile_write p i.decrypt_fself i.outfile_ok])
  else
    ({ s with state := State.FAIL, fself := [], license := SceNpDrmLicense.zero }, [call])

/-- The body of the popup: the `switch (state)` of source lines 109-181.
`dialog` is the flag as `BeginPopupModal` left it. -/
def popup_body (i : FrameInput) (dialog : Bool) (s : Ctl) : Frame :=
  match s.state with
  | State.DECRYPT =>
    let r := decrypt_step i s
    { ctl := r.1, dialog := dialog, events := r.2 }
  | State.NO_ENCRYPTED =>
    let s := { s with title := "No Encrypted" }
    if i.ok_button then
      { ctl := { s with self_file := "", self_path := [], license_path := [],
                        draw_file_dialog := true, state := State.UNDEFINED },
        dialog := false, events := [] }
    else { ctl := s, dialog := dialog, events := [] }
  | State.SUCCESS =>
    let s := { s with title := "Decrypt Complete" }
    if i.ok_button then
      { ctl := { s with decrypted_path := [], self_file := "", self_path := [],
                        license_path := [], draw_file_dialog := true,
                        state := State.UNDEFINED },
        dialog := false, events := [] }
    else { ctl := s, dialog := dialog, events := [] }
  | State.FAIL =>
    let s := { s with title := "Decrypt Failed" }
    if i.ok_button then
      { ctl := { s with decrypted_path := [], self_file := "", self_path := [],
                        draw_file_dialog := true, license_path := [],
                        state := State.UNDEFINED },
        dialog := false, events := [] }
    else { ctl := s, dialog := dialog, events := [] }
  | State.UNDEFINED => { ctl := s, dialog := dialog, events := [] }

/-- The render step: source lines 102-183, `BeginPopupModal` and the popup body. -/
def render (i : FrameInput) (dialog : Bool) (s : Ctl) : Frame :=
  match i.popup with
  | PopupResult.shown => popup_body i dialog s
  | PopupResult.hidden => { ctl := s, dialog := dialog, events := [] }
  | PopupResult.closed => { ctl := s, dialog := false, events := [] }

/-- One call of `gui::draw_self_decrypt_dialog`: the acquisition step, then the
render step. -/
def draw_self_decrypt_dialog (i : FrameInput) (s : Ctl) : Frame :=
  let a := acquire i s
  let r := render i a.dialog a.ctl
  { ctl := r.ctl, dialog := r.dialog, events := a.events ++ r.events }

/-- A sequence of frames: the final statics and all calls made, in order. -/
def run (s : Ctl) : List FrameInput → Ctl × List Event
  | [] => (s, [])
  | i :: rest =>
    let f := draw_self_decrypt_dialog i s
    let r := run f.ctl rest
    (r.1, f.events ++ r.2)

/-- The license gate: the license picker and the license loader. -/
def Event.is_license_gate : Event → Bool
  | Event.open_file_license => true
  | Event.open_license _ => true
  | _ => false

/-- A call of `decrypt_fself`. -/
def Event.is_decrypt : Event → Bool
  | Event.decrypt_fself _ _ => true
  | _ => false

/-- A call of the persistence step: `create_directories` or the write of `outfile`. -/
def Event.is_output : Event → Bool
  | Event.create_directories _ => true
  | Event.outfile_write _ _ _ => true
  | _ => false

/-- The user acknowledges in a frame: the popup is shown and OK is pressed. -/
def acknowledges (i : FrameInput) : Bool :=
  i.popup == PopupResult.shown && i.ok_button

/-- A frame acquires a file: the file gate is armed and the picker succeeds. -/
def acquires (i : FrameInput) (s : Ctl) : Bool :=
  s.draw_file_dialog && (i.self_result == Result.SUCCESS)

/-- No frame of the sequence, run from `s`, acquires a file. -/
def NoAcquire : Ctl → List FrameInput → Prop
  | _, [] => True
  | s, i :: rest => acquires i s = false ∧ NoAcquire (draw_self_decrypt_dialog i s).ctl rest

/-- A frame in which nothing happens: the popup is not shown. -/
def quiet_frame : FrameInput :=
  { self_decrypt_dialog := true
    cache_path := ["cache"]
    self_result := Result.CANCEL
    self_chosen := []
    infile := []
    is_fself_encrypted := false
    is_fself_app := false
    license_result := Result.CANCEL
    license_chosen := []
    open_license := false
    license_buf := SceNpDrmLicense.zero
    popup := PopupResult.hidden
    decrypt_fself := []
    persistence := Persistence.written
    ok_button := false }

/-- The user picks `game.self`, whose bytes are not encrypted; the popup is shown. -/
def pick_game_self : FrameInput :=
  { quiet_frame with
    self_result := Result.SUCCESS
    self_chosen := ["home", "game.self"]
    infile := [1, 2, 3]
    popup := PopupResult.shown }

/-- A later frame of the same dialog: the popup is shown, OK is not pressed. -/
def idle_frame : FrameInput :=
  { quiet_frame with popup := PopupResult.shown }

/-- The user picks `eboot.self` (encrypted, application) and then cancels the
license picker; the popup layer returns `false` and leaves the flag alone. -/
def pick_eboot_cancel_license : FrameInput :=
  { quiet_frame with
    self_result := Result.SUCCESS
    self_chosen := ["home", "eboot.self"]
    infile := [7, 7, 7]
    is_fself_encrypted := true
    is_fself_app := true
    license_result := Result.CANCEL }

/-- The user picks `np.suprx` (encrypted, not an application); the popup is
shown and the decryptor returns two bytes. -/
def pick_np_suprx : FrameInput :=
  { quiet_frame with
    self_result := Result.SUCCESS
    self_chosen := ["home", "np.suprx"]
    infile := [9, 9]
    is_fself_encrypted := true
    is_fself_app := false
    popup := PopupResult.shown
    decrypt_fself := [4, 2] }

/-- Modelled from the spec: the body of `open_license` (`packages/license.h`)
is missing.  By its contract, `load_license(path) -> LicenseKey | ParseError`
with key material created on a successful acquisition only, a failed
`open_license` leaves the key material of the license empty. -/
def FailedLicenseKeyEmpty (i : FrameInput) : Prop :=
  i.open_license = false → i.license_buf.key = []

/-- The statics reachable from the initial ones by frames whose inputs all
satisfy `P`. -/
inductive Reachable (P : FrameInput → Prop) : Ctl → Prop where
  | init : Reachable P Ctl.init
  | frame (i : FrameInput) (s : Ctl) :
      Reachable P s → P i → Reachable P (draw_self_decrypt_dialog i s).ctl

/-- The armed gate implies `UNDEFINED`, and outside `DECRYPT` the key is empty. -/
def KeyInv (s : Ctl) : Prop :=
  (s.draw_file_dialog = true → s.state = State.UNDEFINED) ∧
    (s.state ≠ State.DECRYPT → s.license.key = [])

instance FailedLicenseKeyEmpty.decidable (i : FrameInput) :
    Decidable (FailedLicenseKeyEmpty i) :=
  inferInstanceAs (Decidable (i.open_license = false → i.license_buf.key = []))

instance NoAcquire.decidable : (s : Ctl) → (l : List FrameInput) → Decidable (NoAcquire s l)
  | _, [] => isTrue trivial
  | s, i :: rest =>
    have := NoAcquire.decidable (draw_self_decrypt_dialog i s).ctl rest
    inferInstanceAs
      (Decidable (acquires i s = false ∧ NoAcquire (draw_self_decrypt_dialog i s).ctl rest))

/-- The user picks `eboot.self` (encrypted, application) and a license that
loads; the popup is shown, the decryptor returns three bytes and the write of
the output succeeds. -/
def pick_eboot_self : FrameInput :=
  { quiet_frame with
    self_result := Result.SUCCESS
    self_chosen := ["home", "eboot.self"]
    infile := [7, 7, 7]
    is_fself_encrypted := true
    is_fself_app := true
    license_result := Result.SUCCESS
    license_chosen := ["home", "license.rif"]
    open_license := true
    license_buf := { key := [1, 2, 3, 4], body := [5] }
    popup := PopupResult.shown
    decrypt_fself := [5, 6, 7] }

/-- As `pick_eboot_self`, but the output file cannot be written. -/
def pick_eboot_self_write_fails : FrameInput :=
  { pick_eboot_self with persistence := Persistence.write_failed }

/-- As `pick_eboot_self`, but `fs::create_directories` throws. -/
def pick_eboot_self_directory_error : FrameInput :=
  { pick_eboot_self with persistence := Persistence.directory_error }

/-- The persistence step of the frame does not throw. -/
def NoThrow (i : FrameInput) : Prop :=
  i.persistence ≠ Persistence.directory_error

instance NoThrow.decidable (i : FrameInput) : Decidable (NoThrow i) :=
  inferInstanceAs (Decidable (i.persistence ≠ Persistence.directory_error))

/-- As `pick_eboot_self`, but the decryptor returns nothing. -/
def pick_eboot_self_decrypt_fails : FrameInput :=
  { pick_eboot_self with decrypt_fself := [] }

/-- The popup is shown and the user presses OK. -/
def press_ok : FrameInput :=
  { quiet_frame with popup := PopupResult.shown, ok_button := true }

/-- The statics after a licensed run that succeeded and was acknowledged. -/
def after_licensed_run : Ctl :=
  (draw_self_decrypt_dialog press_ok (draw_self_decrypt_dialog pick_eboot_self Ctl.init).ctl).ctl

/-- The writes of `outfile` among the calls made. -/
def outfile_writes (evs : List Event) : List Event :=
  evs.filter (fun e => match e with
    | Event.outfile_write _ _ _ => true
    | _ => false)

/-- The files written: path and content of every write of `outfile` that succeeded. -/
def files_written (evs : List Event) : List (Path × Bytes) :=
  evs.filterMap (fun e => match e with
    | Event.outfile_write p b true => some (p, b)
    | _ => none)

/-- The output path in the words of the specification:
`<cache_root>/decrypted/<original_file_name>`. -/
def spec_output_path (cache_path : Path) (self_file : String) : Path :=
  (cache_path.join "decrypted").join self_file

/-- The user picks `eboot.self` (encrypted, application) and a license file
that `open_license` fails to load, leaving the license empty; the popup is shown. -/
def pick_eboot_bad_license : FrameInput :=
  { quiet_frame with
    self_result := Result.SUCCESS
    self_chosen := ["home", "eboot.self"]
    infile := [7, 7, 7]
    is_fself_encrypted := true
    is_fself_app := true
    license_result := Result.SUCCESS
    license_chosen := ["home", "license.rif"]
    open_license := false
    license_buf := SceNpDrmLicense.zero
    popup := PopupResult.shown }

/-- The armed gate implies `UNDEFINED`; in `SUCCESS` an artifact is recorded,
and one is recorded in `SUCCESS`, `DECRYPT` or `FAIL` only. -/
def GateInv (s : Ctl) : Prop :=
  (s.draw_file_dialog = true → s.state = State.UNDEFINED) ∧
    (s.state = State.SUCCESS → s.decrypted_path ≠ []) ∧
    (s.decrypted_path ≠ [] →
      s.state = State.SUCCESS ∨ s.state = State.DECRYPT ∨ s.state = State.FAIL)

/-- The armed gate implies `UNDEFINED`, and an artifact is recorded exactly in `SUCCESS`. -/
def ArtifactInv (s : Ctl) : Prop :=
  (s.draw_file_dialog = true → s.state = State.UNDEFINED) ∧
    (s.decrypted_path ≠ [] ↔ s.state = State.SUCCESS)

/-- The file picker reports an error; the popup is not shown. -/
def picker_error : FrameInput :=
  { quiet_frame with self_result := Result.ERROR }

/-- The statics after a run on `eboot.self` whose license did not load and
that was acknowledged. -/
def after_failed_license_run : Ctl :=
  (draw_self_decrypt_dialog press_ok
    (draw_self_decrypt_dialog pick_eboot_bad_license Ctl.init).ctl).ctl

/-- The states in which the popup shows an OK button. -/
def State.is_terminal : State → Bool
  | State.NO_ENCRYPTED => true
  | State.SUCCESS => true
  | State.FAIL => true
  | _ => false

/-- The user acknowledges a terminal state in a frame: the popup is shown,
the state it displays is terminal and its OK button is pressed. -/
def acknowledged (i : FrameInput) (s : Ctl) : Bool :=
  i.popup == PopupResult.shown && i.ok_button && (acquire i s).ctl.state.is_terminal

/-- No frame of the sequence, run from `s`, acknowledges a terminal state. -/
def NoAck : Ctl → List FrameInput → Prop
  | _, [] => True
  | s, i :: rest => acknowledged i s = false ∧ NoAck (draw_self_decrypt_dialog i s).ctl rest

instance NoAck.decidable : (s : Ctl) → (l : List FrameInput) → Decidable (NoAck s l)
  | _, [] => isTrue trivial
  | s, i :: rest =>
    have := NoAck.decidable (draw_self_decrypt_dialog i s).ctl rest
    inferInstanceAs
      (Decidable (acknowledged i s = false ∧ NoAck (draw_self_decrypt_dialog i s).ctl rest))

/-- What a frame shows to the outside: the workflow state and the dialog flag
it ends with, and the calls it made, with their arguments. -/
structure Observation where
  state : State
  dialog : Bool
  events : List Event
  deriving DecidableEq, Repr

/-- The observations of a sequence of frames, one per frame. -/
def observe (s : Ctl) : List FrameInput → List Observation
  | [] => []
  | i :: rest =>
    let f := draw_self_decrypt_dialog i s
    { state := f.ctl.state, dialog := f.dialog, events := f.events } :: observe f.ctl rest

/-- Two statics that no sequence of frames tells apart: they agree on the
gate, the state and the key, and in `DECRYPT` on the buffer and the file name. -/
def Alike (s t : Ctl) : Prop :=
  s.draw_file_dialog = t.draw_file_dialog ∧ s.state = t.state ∧
    s.license.key = t.license.key ∧
    (s.state = State.DECRYPT → s.fself = t.fself ∧ s.self_file = t.self_file)

/-- The arguments of the calls of `create_directories` among the calls made. -/
def created_directories (evs : List Event) : List Path :=
  evs.filterMap (fun e => match e with
    | Event.create_directories p => some p
    | _ => none)

/-- The statics after a run that succeeded and was acknowledged, followed by
a run on `eboot.self` whose decryption failed. -/
def fail_after_success : Ctl :=
  (draw_self_decrypt_dialog pick_eboot_self_decrypt_fails after_licensed_run).ctl

/-! ## Frame lemmas -/

theorem acquire_of_not_acquires (i : FrameInput) (s : Ctl) (h : acquires i s = false) :
    (acquire i s).ctl = s ∧
      ∀ e ∈ (acquire i s).events, e = Event.open_file_self ∨ e = Event.log_error := by
  rcases s with ⟨sp, lp, t, dfd, st, fs, lic, sf, dp⟩
  cases dfd <;> cases hr : i.self_result <;> simp_all [acquires, acquire]

theorem render_events (i : FrameInput) (d : Bool) (s : Ctl) :
    (render i d s).events = [] ∨
      (i.popup = PopupResult.shown ∧ s.state = State.DECRYPT ∧
        (render i d s).events = (decrypt_step i s).2) := by
  rcases s with ⟨sp, lp, t, dfd, st, fs, lic, sf, dp⟩
  cases hp : i.popup <;> cases st <;> cases hok : i.ok_button <;> simp [render, popup_body, hp, hok]

/-- A frame in `NO_ENCRYPTED` with the gate disarmed and no acknowledgement changes
only the title and calls nobody. -/
theorem draw_no_encrypted_idle (i : FrameInput) (s : Ctl)
    (hst : s.state = State.NO_ENCRYPTED) (hd : s.draw_file_dialog = false)
    (hack : acknowledges i = false) :
    (draw_self_decrypt_dialog i s).ctl.state = State.NO_ENCRYPTED ∧
      (draw_self_decrypt_dialog i s).ctl.draw_file_dialog = false ∧
      (draw_self_decrypt_dialog i s).ctl.fself = s.fself ∧
      (draw_self_decrypt_dialog i s).events = [] := by
  rcases s with ⟨sp, lp, t, dfd, st, fs, lic, sf, dp⟩
  simp only at hst hd
  subst hst hd
  cases hp : i.popup <;> cases hok : i.ok_button <;>
    simp_all [draw_self_decrypt_dialog, acquire, render, popup_body, acknowledges]

theorem run_no_encrypted_idle (rest : List FrameInput) : ∀ (s : Ctl),
    s.state = State.NO_ENCRYPTED → s.draw_file_dialog = false →
    (∀ j ∈ rest, acknowledges j = false) →
    (run s rest).1.state = State.NO_ENCRYPTED ∧ (run s rest).1.fself = s.fself ∧
      (run s rest).2 = [] := by
  induction rest with
  | nil => intro s hst _ _; simp [run, hst]
  | cons j rest ih =>
    intro s hst hd hack
    obtain ⟨h1, h2, h3, h4⟩ := draw_no_encrypted_idle j s hst hd (hack j (by simp))
    obtain ⟨k1, k2, k3⟩ := ih _ h1 h2 (fun k hk => hack k (by simp [hk]))
    simp [run, k1, k2, k3, h3, h4]

/-- The acquisition step on a file the classifier reports as not encrypted. -/
theorem acquire_not_encrypted (i : FrameInput) (s : Ctl)
    (harm : s.draw_file_dialog = true) (hpick : i.self_result = Result.SUCCESS)
    (hplain : i.is_fself_encrypted = false) :
    (acquire i s).ctl.state = State.NO_ENCRYPTED ∧
      (acquire i s).ctl.draw_file_dialog = false ∧
      (acquire i s).ctl.fself = [] ∧
      (acquire i s).events = [Event.open_file_self, Event.read_infile i.self_chosen,
        Event.is_fself_encrypted i.infile, Event.open_popup] := by
  simp [acquire, harm, hpick, hplain]

/-! ## C1 -/

/-- C1: with the file gate armed and a chosen file that the classifier reports
as not encrypted, the acquisition step leaves `state = NO_ENCRYPTED` with an
empty package buffer and calls neither the license picker nor `open_license`;
and as long as the user does not acknowledge, the frames that follow (the
render step of the same frame included) keep that state and buffer and call
neither the license gate, nor `decrypt_fself`, nor the persistence step. -/
theorem C1_not_encrypted_reaches_no_encrypted (s : Ctl) (i : FrameInput)
    (rest : List FrameInput)
    (harm : s.draw_file_dialog = true) (hpick : i.self_result = Result.SUCCESS)
    (hplain : i.is_fself_encrypted = false) :
    (acquire i s).ctl.state = State.NO_ENCRYPTED ∧
      (acquire i s).ctl.fself = [] ∧
      (∀ e ∈ (acquire i s).events, e.is_license_gate = false) ∧
      ((∀ j ∈ i :: rest, acknowledges j = false) →
        (run s (i :: rest)).1.state = State.NO_ENCRYPTED ∧
        (run s (i :: rest)).1.fself = [] ∧
        ∀ e ∈ (run s (i :: rest)).2,
          e.is_license_gate = false ∧ e.is_decrypt = false ∧ e.is_output = false) := by
  obtain ⟨a1, a2, a3, a4⟩ := acquire_not_encrypted i s harm hpick hplain
  refine ⟨a1, a3, ?_, ?_⟩
  · intro e he
    rw [a4] at he
    simp at he
    rcases he with h | h | h | h <;> subst h <;> rfl
  · intro hack
    have hi : acknowledges i = false := hack i (by simp)
    have hr : ∃ f : Frame, render i (acquire i s).dialog (acquire i s).ctl = f ∧
        f.ctl.state = State.NO_ENCRYPTED ∧ f.ctl.draw_file_dialog = false ∧
        f.ctl.fself = [] ∧ f.events = [] := by
      refine ⟨_, rfl, ?_⟩
      generalize acquire i s = a at a1 a2 a3
      rcases a with ⟨⟨sp, lp, t, dfd, st, fs, lic, sf, dp⟩, d, ev⟩
      simp only at a1 a2 a3
      subst a1 a2 a3
      cases hp : i.popup <;> cases hok : i.ok_button <;>
        simp_all [render, popup_body, acknowledges]
    obtain ⟨f, hf, f1, f2, f3, f4⟩ := hr
    have hdraw : (draw_self_decrypt_dialog i s).ctl = f.ctl ∧
        (draw_self_decrypt_dialog i s).events = (acquire i s).events := by
      simp [draw_self_decrypt_dialog, hf, f4]
    obtain ⟨k1, k2, k3⟩ := run_no_encrypted_idle rest f.ctl f1 f2
      (fun k hk => hack k (by simp [hk]))
    simp only [run, hdraw.1, hdraw.2, k1, k2, k3, f3, List.append_nil, true_and]
    intro e he
    rw [a4] at he
    simp at he
    rcases he with h | h | h | h <;> subst h <;> simp [Event.is_license_gate, Event.is_decrypt, Event.is_output]

/-- C1 at `game.self` from the initial statics, followed by one more frame in
which the popup is shown and OK is not pressed. -/
theorem C1_not_encrypted_reaches_no_encrypted_witness :
    (Ctl.init.draw_file_dialog = true ∧ pick_game_self.self_result = Result.SUCCESS ∧
      pick_game_self.is_fself_encrypted = false ∧
      ∀ j ∈ [pick_game_self, idle_frame], acknowledges j = false) ∧
    (acquire pick_game_self Ctl.init).ctl.state = State.NO_ENCRYPTED ∧
    (run Ctl.init [pick_game_self, idle_frame]).1.state = State.NO_ENCRYPTED ∧
    (run Ctl.init [pick_game_self, idle_frame]).1.fself = [] ∧
    ∀ e ∈ (run Ctl.init [pick_game_self, idle_frame]).2,
      e.is_license_gate = false ∧ e.is_decrypt = false ∧ e.is_output = false :=
  ⟨by decide,
    (C1_not_encrypted_reaches_no_encrypted Ctl.init pick_game_self [idle_frame]
      (by decide) (by decide) (by decide)).1,
    (C1_not_encrypted_reaches_no_encrypted Ctl.init pick_game_self [idle_frame]
      (by decide) (by decide) (by decide)).2.2.2 (by decide)⟩

/-! ## C2 -/

/-- C2: in a frame where the file picker succeeds, the license picker is
invoked if and only if the classifier reports the bytes as encrypted and as an
application package; for such a file the acquisition step leaves `DECRYPT`
exactly when the license picker returned success and `open_license`
succeeded, the frame can end in `DECRYPT` only then, and a cancelled license
picker never leaves `DECRYPT`. -/
theorem C2_license_gate_iff_encrypted_app (s : Ctl) (i : FrameInput)
    (harm : s.draw_file_dialog = true) (hpick : i.self_result = Result.SUCCESS) :
    (Event.open_file_license ∈ (draw_self_decrypt_dialog i s).events ↔
        (i.is_fself_encrypted = true ∧ i.is_fself_app = true)) ∧
      (i.is_fself_encrypted = true → i.is_fself_app = true →
        (((acquire i s).ctl.state = State.DECRYPT ↔
            (i.license_result = Result.SUCCESS ∧ i.open_license = true)) ∧
          ((draw_self_decrypt_dialog i s).ctl.state = State.DECRYPT →
            (i.license_result = Result.SUCCESS ∧ i.open_license = true)) ∧
          (i.license_result = Result.CANCEL →
            (acquire i s).ctl.state ≠ State.DECRYPT ∧
            (draw_self_decrypt_dialog i s).ctl.state ≠ State.DECRYPT))) := by
  rcases s with ⟨sp, lp, t, dfd, st, fs, lic, sf, dp⟩
  simp only at harm
  subst harm
  cases he : i.is_fself_encrypted <;> cases ha : i.is_fself_app <;>
    cases hl : i.license_result <;> cases ho : i.open_license <;>
    cases hp : i.popup <;> cases hok : i.ok_button <;>
    by_cases hout : i.decrypt_fself = [] <;>
    by_cases hdir : i.persistence = Persistence.directory_error <;>
    simp [draw_self_decrypt_dialog, acquire, acquire_license, render, popup_body,
      decrypt_step, hpick, he, ha, hl, ho, hp, hok, hout, hdir]

/-- C2 at `eboot.self` with the license picker cancelled: the picker was
invoked and the state is not `DECRYPT`. -/
theorem C2_license_gate_iff_encrypted_app_witness :
    (Ctl.init.draw_file_dialog = true ∧
      pick_eboot_cancel_license.self_result = Result.SUCCESS) ∧
    Event.open_file_license ∈
      (draw_self_decrypt_dialog pick_eboot_cancel_license Ctl.init).events ∧
    (draw_self_decrypt_dialog pick_eboot_cancel_license Ctl.init).ctl.state ≠
      State.DECRYPT :=
  ⟨by decide,
    (C2_license_gate_iff_encrypted_app Ctl.init pick_eboot_cancel_license
      (by decide) (by decide)).1.2 (by decide),
    (((C2_license_gate_iff_encrypted_app Ctl.init pick_eboot_cancel_license
      (by decide) (by decide)).2 (by decide) (by decide)).2.2 (by decide)).2⟩

/-! ## Reachable statics and the key -/

theorem keyInv_init : KeyInv Ctl.init := by
  simp [KeyInv, Ctl.init, SceNpDrmLicense.zero]

theorem keyInv_acquire (i : FrameInput) (s : Ctl) (hi : FailedLicenseKeyEmpty i)
    (h : KeyInv s) : KeyInv (acquire i s).ctl := by
  rcases s with ⟨sp, lp, t, dfd, st, fs, lic, sf, dp⟩
  obtain ⟨h1, h2⟩ := h
  simp only at h1 h2
  cases dfd
  · simpa [acquire, KeyInv] using h2
  · have hst : st = State.UNDEFINED := h1 rfl
    subst hst
    have hk : lic.key = [] := h2 (by decide)
    unfold FailedLicenseKeyEmpty at hi
    cases hr : i.self_result <;> cases he : i.is_fself_encrypted <;>
      cases ha : i.is_fself_app <;> cases hl : i.license_result <;>
      cases ho : i.open_license <;>
      simp_all [acquire, acquire_license, KeyInv]

theorem keyInv_render (i : FrameInput) (d : Bool) (s : Ctl) (h : KeyInv s) :
    KeyInv (render i d s).ctl := by
  rcases s with ⟨sp, lp, t, dfd, st, fs, lic, sf, dp⟩
  obtain ⟨h1, h2⟩ := h
  simp only at h1 h2
  cases hp : i.popup <;> cases st <;> cases hok : i.ok_button <;>
    by_cases hout : i.decrypt_fself = [] <;>
    by_cases hdir : i.persistence = Persistence.directory_error <;>
    simp_all [render, popup_body, decrypt_step, KeyInv, SceNpDrmLicense.zero]

theorem keyInv_draw (i : FrameInput) (s : Ctl) (hi : FailedLicenseKeyEmpty i)
    (h : KeyInv s) : KeyInv (draw_self_decrypt_dialog i s).ctl := by
  simpa [draw_self_decrypt_dialog] using keyInv_render i _ _ (keyInv_acquire i s hi h)

theorem keyInv_of_reachable (s : Ctl) (h : Reachable FailedLicenseKeyEmpty s) :
    KeyInv s := by
  induction h with
  | init => exact keyInv_init
  | frame i s _ hi ih => exact keyInv_draw i s hi ih

/-- The render step passes the stored key to `decrypt_fself`, and can end in
`DECRYPT` only without having changed the statics' key. -/
theorem render_decrypt_key (i : FrameInput) (d : Bool) (s : Ctl)
    (h : s.state = State.DECRYPT → s.license.key = []) :
    ((render i d s).ctl.state = State.DECRYPT → (render i d s).ctl.license.key = []) ∧
      ∀ b k, Event.decrypt_fself b k ∈ (render i d s).events → b = s.fself ∧ k = [] := by
  rcases s with ⟨sp, lp, t, dfd, st, fs, lic, sf, dp⟩
  simp only at h
  cases hp : i.popup <;> cases st <;> cases hok : i.ok_button <;>
    by_cases hout : i.decrypt_fself = [] <;>
    by_cases hdir : i.persistence = Persistence.directory_error <;>
    simp_all [render, popup_body, decrypt_step]

theorem draw_decrypt_key (i : FrameInput) (s : Ctl) (hna : acquires i s = false)
    (h : s.state = State.DECRYPT → s.license.key = []) :
    ((draw_self_decrypt_dialog i s).ctl.state = State.DECRYPT →
        (draw_self_decrypt_dialog i s).ctl.license.key = []) ∧
      ∀ b k, Event.decrypt_fself b k ∈ (draw_self_decrypt_dialog i s).events → k = [] := by
  obtain ⟨a1, a2⟩ := acquire_of_not_acquires i s hna
  have hr := render_decrypt_key i (acquire i s).dialog s h
  simp only [draw_self_decrypt_dialog, a1]
  refine ⟨hr.1, ?_⟩
  intro b k hm
  rcases List.mem_append.1 hm with hm | hm
  · rcases a2 _ hm with h' | h' <;> cases h'
  · exact (hr.2 b k hm).2

theorem run_decrypt_key (rest : List FrameInput) : ∀ (s : Ctl),
    (s.state = State.DECRYPT → s.license.key = []) → NoAcquire s rest →
    ∀ b k, Event.decrypt_fself b k ∈ (run s rest).2 → k = [] := by
  induction rest with
  | nil => intro s _ _ b k hm; simp [run] at hm
  | cons j rest ih =>
    intro s h hna b k hm
    obtain ⟨d1, d2⟩ := draw_decrypt_key j s hna.1 h
    simp only [run] at hm
    rcases List.mem_append.1 hm with hm | hm
    · exact d2 b k hm
    · exact ih _ d1 hna.2 b k hm

/-! ## C3 -/

/-- C3: in every statics reachable from the initial ones by frames in which a
failed `open_license` leaves the key empty, when an encrypted non-application
file is chosen the acquisition step leaves `DECRYPT` with the empty key and
without calling the license gate; when the popup is shown in that frame
`decrypt_fself` is called on the file's bytes with the empty key; and every
call of `decrypt_fself` made before another file is acquired has the empty key. -/
theorem C3_non_app_decrypts_with_empty_key (s : Ctl) (i : FrameInput)
    (rest : List FrameInput)
    (hreach : Reachable FailedLicenseKeyEmpty s)
    (harm : s.draw_file_dialog = true) (hpick : i.self_result = Result.SUCCESS)
    (henc : i.is_fself_encrypted = true) (happ : i.is_fself_app = false) :
    (acquire i s).ctl.state = State.DECRYPT ∧
      (acquire i s).ctl.license.key = [] ∧
      (∀ e ∈ (draw_self_decrypt_dialog i s).events, e.is_license_gate = false) ∧
      (i.popup = PopupResult.shown →
        Event.decrypt_fself i.infile [] ∈ (draw_self_decrypt_dialog i s).events) ∧
      (NoAcquire (draw_self_decrypt_dialog i s).ctl rest →
        ∀ b k, Event.decrypt_fself b k ∈ (run s (i :: rest)).2 → k = []) := by
  obtain ⟨k1, k2⟩ := keyInv_of_reachable s hreach
  have hst : s.state = State.UNDEFINED := k1 harm
  have hkey : s.license.key = [] := k2 (by rw [hst]; decide)
  have hacq : (acquire i s).ctl.state = State.DECRYPT ∧
      (acquire i s).ctl.license.key = [] ∧ (acquire i s).ctl.fself = i.infile ∧
      (acquire i s).events = [Event.open_file_self, Event.read_infile i.self_chosen,
        Event.is_fself_encrypted i.infile, Event.is_fself_app i.infile,
        Event.open_popup] := by
    simp [acquire, harm, hpick, henc, happ, hkey]
  obtain ⟨a1, a2, a3, a4⟩ := hacq
  have hr := render_decrypt_key i (acquire i s).dialog (acquire i s).ctl (fun _ => a2)
  have hev : ∀ b k, Event.decrypt_fself b k ∈ (draw_self_decrypt_dialog i s).events →
      k = [] := by
    intro b k hm
    simp only [draw_self_decrypt_dialog] at hm
    rcases List.mem_append.1 hm with hm | hm
    · rw [a4] at hm; simp at hm
    · exact (hr.2 b k hm).2
  refine ⟨a1, a2, ?_, ?_, ?_⟩
  · intro e he
    simp only [draw_self_decrypt_dialog] at he
    rcases List.mem_append.1 he with he | he
    · rw [a4] at he
      simp at he
      rcases he with h | h | h | h | h <;> subst h <;> rfl
    · rcases render_events i (acquire i s).dialog (acquire i s).ctl with h | ⟨_, _, h⟩
      · rw [h] at he; simp at he
      · rw [h] at he
        by_cases hout : i.decrypt_fself = [] <;>
          by_cases hdir : i.persistence = Persistence.directory_error <;>
          simp [decrypt_step, hout, hdir] at he <;>
          (try rcases he with h | h | h) <;> subst_vars <;> rfl
  · intro hp
    simp only [draw_self_decrypt_dialog]
    apply List.mem_append_right
    generalize acquire i s = a at a1 a2 a3
    rcases a with ⟨⟨sp, lp, t, dfd, st, fs, lic, sf, dp⟩, d, ev⟩
    simp only at a1 a2 a3
    subst a1 a3
    by_cases hout : i.decrypt_fself = [] <;>
    by_cases hdir : i.persistence = Persistence.directory_error <;>
      simp [render, popup_body, decrypt_step, hp, hout, hdir, a2]
  · intro hna b k hm
    simp only [run] at hm
    rcases List.mem_append.1 hm with hm | hm
    · exact hev b k hm
    · have hd : (draw_self_decrypt_dialog i s).ctl.state = State.DECRYPT →
          (draw_self_decrypt_dialog i s).ctl.license.key = [] := by
        simpa [draw_self_decrypt_dialog] using hr.1
      exact run_decrypt_key rest _ hd hna b k hm

/-- C3 after a licensed run that succeeded and was acknowledged: `np.suprx`
is decrypted with the empty key. -/
theorem C3_non_app_decrypts_with_empty_key_witness :
    (Reachable FailedLicenseKeyEmpty after_licensed_run ∧
      after_licensed_run.draw_file_dialog = true ∧
      pick_np_suprx.self_result = Result.SUCCESS ∧
      pick_np_suprx.is_fself_encrypted = true ∧ pick_np_suprx.is_fself_app = false ∧
      pick_np_suprx.popup = PopupResult.shown ∧
      NoAcquire (draw_self_decrypt_dialog pick_np_suprx after_licensed_run).ctl
        [idle_frame]) ∧
    (acquire pick_np_suprx after_licensed_run).ctl.state = State.DECRYPT ∧
    Event.decrypt_fself pick_np_suprx.infile [] ∈
      (draw_self_decrypt_dialog pick_np_suprx after_licensed_run).events ∧
    ∀ b k, Event.decrypt_fself b k ∈
      (run after_licensed_run (pick_np_suprx :: [idle_frame])).2 → k = [] :=
  have hreach : Reachable FailedLicenseKeyEmpty after_licensed_run :=
    Reachable.frame press_ok _
      (Reachable.frame pick_eboot_self _ Reachable.init (by decide)) (by decide)
  ⟨⟨hreach, by decide, by decide, by decide, by decide, by decide, by decide⟩,
    (C3_non_app_decrypts_with_empty_key after_licensed_run pick_np_suprx [idle_frame]
      hreach (by decide) (by decide) (by decide) (by decide)).1,
    (C3_non_app_decrypts_with_empty_key after_licensed_run pick_np_suprx [idle_frame]
      hreach (by decide) (by decide) (by decide) (by decide)).2.2.2.1 (by decide),
    (C3_non_app_decrypts_with_empty_key after_licensed_run pick_np_suprx [idle_frame]
      hreach (by decide) (by decide) (by decide) (by decide)).2.2.2.2 (by decide)⟩

/-! ## The stored file name and the calls of the acquisition step -/

theorem name_acquire (i : FrameInput) (s : Ctl)
    (h : s.self_file = Path.filename s.self_path) :
    (acquire i s).ctl.self_file = Path.filename (acquire i s).ctl.self_path := by
  rcases s with ⟨sp, lp, t, dfd, st, fs, lic, sf, dp⟩
  simp only at h
  cases dfd <;> cases hr : i.self_result <;> cases he : i.is_fself_encrypted <;>
    cases ha : i.is_fself_app <;> cases hl : i.license_result <;>
    cases ho : i.open_license <;>
    simp_all [acquire, acquire_license]

theorem name_render (i : FrameInput) (d : Bool) (s : Ctl)
    (h : s.self_file = Path.filename s.self_path) :
    (render i d s).ctl.self_file = Path.filename (render i d s).ctl.self_path := by
  rcases s with ⟨sp, lp, t, dfd, st, fs, lic, sf, dp⟩
  simp only at h
  cases hp : i.popup <;> cases st <;> cases hok : i.ok_button <;>
    by_cases hout : i.decrypt_fself = [] <;>
    by_cases hdir : i.persistence = Persistence.directory_error <;>
    simp_all [render, popup_body, decrypt_step, Path.filename]

/-- In every reachable statics the stored file name is the file name of the
chosen path. -/
theorem name_of_reachable (P : FrameInput → Prop) (s : Ctl) (h : Reachable P s) :
    s.self_file = Path.filename s.self_path := by
  induction h with
  | init => simp [Ctl.init, Path.filename]
  | frame i s _ _ ih =>
    simpa [draw_self_decrypt_dialog] using name_render i _ _ (name_acquire i s ih)

theorem outfile_writes_eq_nil (evs : List Event) (h : ∀ e ∈ evs, e.is_output = false) :
    outfile_writes evs = [] := by
  induction evs with
  | nil => rfl
  | cons e evs ih =>
    have he := h e (by simp)
    have ih' := ih (fun x hx => h x (by simp [hx]))
    cases e <;> simp_all [outfile_writes, Event.is_output]

theorem files_written_eq_nil (evs : List Event) (h : ∀ e ∈ evs, e.is_output = false) :
    files_written evs = [] := by
  induction evs with
  | nil => rfl
  | cons e evs ih =>
    have he := h e (by simp)
    have ih' := ih (fun x hx => h x (by simp [hx]))
    cases e <;> simp_all [files_written, Event.is_output]

theorem acquire_license_calls (i : FrameInput) (s : Ctl) :
    (∀ e ∈ (acquire_license i s).2, e.is_output = false ∧ e.is_decrypt = false) ∧
      (acquire_license i s).1.decrypted_path = s.decrypted_path := by
  cases hl : i.license_result <;> cases ho : i.open_license <;>
    simp [acquire_license, hl, ho, Event.is_output, Event.is_decrypt]

theorem acquire_calls (i : FrameInput) (s : Ctl) :
    (∀ e ∈ (acquire i s).events, e.is_output = false ∧ e.is_decrypt = false) ∧
      (acquire i s).ctl.decrypted_path = s.decrypted_path := by
  have hl := acquire_license_calls i
  cases hd : s.draw_file_dialog <;> cases hr : i.self_result <;>
    cases he : i.is_fself_encrypted <;> cases ha : i.is_fself_app <;>
    simp [acquire, hd, hr, he, ha, Event.is_output, Event.is_decrypt, hl]
  intro a h
  have := (hl _).1 a h
  simpa [Event.is_output, Event.is_decrypt] using this

/-- The acquisition step calls neither the decryptor nor the persistence step
and keeps the recorded artifact path. -/
theorem acquire_no_output (i : FrameInput) (s : Ctl) :
    (∀ e ∈ (acquire i s).events, e.is_output = false ∧ e.is_decrypt = false) ∧
      outfile_writes (acquire i s).events = [] ∧
      files_written (acquire i s).events = [] ∧
      (acquire i s).ctl.decrypted_path = s.decrypted_path :=
  ⟨(acquire_calls i s).1,
    outfile_writes_eq_nil _ (fun e he => ((acquire_calls i s).1 e he).1),
    files_written_eq_nil _ (fun e he => ((acquire_calls i s).1 e he).1),
    (acquire_calls i s).2⟩

theorem outfile_writes_append (a b : List Event) :
    outfile_writes (a ++ b) = outfile_writes a ++ outfile_writes b := by
  simp [outfile_writes]

theorem files_written_append (a b : List Event) :
    files_written (a ++ b) = files_written a ++ files_written b := by
  simp [files_written]

/-- A write that succeeded was reached: `fs::create_directories` returned. -/
theorem outfile_ok_no_throw (i : FrameInput) (h : i.outfile_ok = true) :
    i.persistence ≠ Persistence.directory_error := by
  intro h'
  simp [FrameInput.outfile_ok, h'] at h

/-- The decrypt step on a non-empty decryptor output, when
`fs::create_directories` returns. -/
theorem render_decrypt_success (i : FrameInput) (d : Bool) (s : Ctl)
    (hst : s.state = State.DECRYPT) (hshown : i.popup = PopupResult.shown)
    (hout : i.decrypt_fself ≠ []) (hdir : i.persistence ≠ Persistence.directory_error) :
    (render i d s).ctl.state = State.SUCCESS ∧
      (render i d s).ctl.decrypted_path = i.cache_path ++ ["decrypted_self", s.self_file] ∧
      outfile_writes (render i d s).events =
        [Event.outfile_write (render i d s).ctl.decrypted_path i.decrypt_fself i.outfile_ok] ∧
      (i.outfile_ok = true →
        files_written (render i d s).events =
          [((render i d s).ctl.decrypted_path, i.decrypt_fself)]) := by
  rcases s with ⟨sp, lp, t, dfd, st, fs, lic, sf, dp⟩
  simp only at hst
  subst hst
  refine ⟨?_, ?_, ?_, ?_⟩
  · simp [render, popup_body, decrypt_step, hshown, hout, hdir]
  · simp [render, popup_body, decrypt_step, hshown, hout, hdir, output_path, Path.join]
  · simp [render, popup_body, decrypt_step, hshown, hout, hdir, outfile_writes, List.filter]
  · intro hok
    simp [render, popup_body, decrypt_step, hshown, hout, hdir, files_written,
      List.filterMap, hok]

/-- The decrypt step on an empty decryptor output. -/
theorem render_decrypt_failure (i : FrameInput) (d : Bool) (s : Ctl)
    (hst : s.state = State.DECRYPT) (hshown : i.popup = PopupResult.shown)
    (hout : i.decrypt_fself = []) :
    (render i d s).ctl.state = State.FAIL ∧
      (render i d s).events = [Event.decrypt_fself s.fself s.license.key] ∧
      (render i d s).ctl.decrypted_path = s.decrypted_path := by
  rcases s with ⟨sp, lp, t, dfd, st, fs, lic, sf, dp⟩
  simp only at hst
  subst hst
  simp [render, popup_body, decrypt_step, hshown, hout]

/-! ## C4 -/

/-- C4 as stated fails at `eboot.self`, chosen in the initial statics with a
license that loads, the popup shown and a decryptor that returns three bytes.
The write goes to, and the recorded artifact is,
`cache/decrypted_self/eboot.self`, not `cache/decrypted/eboot.self`; and when
the write of the output does not succeed the state is `SUCCESS` all the same
although no file has been written. -/
theorem C4_counterexample :
    (acquire pick_eboot_self Ctl.init).ctl.state = State.DECRYPT ∧
    pick_eboot_self.decrypt_fself ≠ [] ∧
    (draw_self_decrypt_dialog pick_eboot_self Ctl.init).ctl.decrypted_path
      = ["cache", "decrypted_self", "eboot.self"] ∧
    spec_output_path pick_eboot_self.cache_path
      (Path.filename pick_eboot_self.self_chosen) = ["cache", "decrypted", "eboot.self"] ∧
    files_written (draw_self_decrypt_dialog pick_eboot_self Ctl.init).events ≠
      [(spec_output_path pick_eboot_self.cache_path
          (Path.filename pick_eboot_self.self_chosen), pick_eboot_self.decrypt_fself)] ∧
    (acquire pick_eboot_self_write_fails Ctl.init).ctl.state = State.DECRYPT ∧
    pick_eboot_self_write_fails.decrypt_fself ≠ [] ∧
    (draw_self_decrypt_dialog pick_eboot_self_write_fails Ctl.init).ctl.state =
      State.SUCCESS ∧
    files_written (draw_self_decrypt_dialog pick_eboot_self_write_fails Ctl.init).events
      = [] := by
  decide

/-- C4 (amended): in a frame, from any reachable statics, whose decrypt step
runs in state `DECRYPT` with `decrypt_fself` returning a non-empty byte
sequence, and in which the write of the output succeeds, the state becomes
`SUCCESS`, exactly one write is issued and exactly one file is written, its
path (the recorded artifact) is
`<cache_path>/decrypted_self/<file name of the chosen path>`, and its content
is the decryptor's output. -/
theorem C4_decrypt_success_writes_output (P : FrameInput → Prop) (s : Ctl) (i : FrameInput)
    (hreach : Reachable P s)
    (hst : (acquire i s).ctl.state = State.DECRYPT) (hshown : i.popup = PopupResult.shown)
    (hout : i.decrypt_fself ≠ []) (hok : i.outfile_ok = true) :
    (draw_self_decrypt_dialog i s).ctl.state = State.SUCCESS ∧
      (draw_self_decrypt_dialog i s).ctl.decrypted_path =
        i.cache_path ++ ["decrypted_self", Path.filename (acquire i s).ctl.self_path] ∧
      outfile_writes (draw_self_decrypt_dialog i s).events =
        [Event.outfile_write (draw_self_decrypt_dialog i s).ctl.decrypted_path
          i.decrypt_fself true] ∧
      files_written (draw_self_decrypt_dialog i s).events =
        [((draw_self_decrypt_dialog i s).ctl.decrypted_path, i.decrypt_fself)] := by
  have hname := name_acquire i s (name_of_reachable P s hreach)
  obtain ⟨_, a2, a3, _⟩ := acquire_no_output i s
  obtain ⟨r1, r2, r3, r4⟩ :=
    render_decrypt_success i (acquire i s).dialog (acquire i s).ctl hst hshown hout
      (outfile_ok_no_throw i hok)
  refine ⟨r1, ?_, ?_, ?_⟩
  · rw [← hname]; exact r2
  · simpa [draw_self_decrypt_dialog, outfile_writes_append, a2, hok] using r3
  · simpa [draw_self_decrypt_dialog, files_written_append, a3] using r4 hok

/-- C4 (amended) at `eboot.self`, chosen in the initial statics with a license
that loads. -/
theorem C4_decrypt_success_writes_output_witness :
    ((acquire pick_eboot_self Ctl.init).ctl.state = State.DECRYPT ∧
      pick_eboot_self.popup = PopupResult.shown ∧ pick_eboot_self.decrypt_fself ≠ [] ∧
      pick_eboot_self.outfile_ok = true) ∧
    (draw_self_decrypt_dialog pick_eboot_self Ctl.init).ctl.state = State.SUCCESS ∧
    (draw_self_decrypt_dialog pick_eboot_self Ctl.init).ctl.decrypted_path =
      pick_eboot_self.cache_path ++ ["decrypted_self",
        Path.filename (acquire pick_eboot_self Ctl.init).ctl.self_path] ∧
    files_written (draw_self_decrypt_dialog pick_eboot_self Ctl.init).events =
      [((draw_self_decrypt_dialog pick_eboot_self Ctl.init).ctl.decrypted_path,
        pick_eboot_self.decrypt_fself)] :=
  ⟨by decide,
    (C4_decrypt_success_writes_output (fun _ => True) Ctl.init pick_eboot_self
      Reachable.init (by decide) (by decide) (by decide) (by decide)).1,
    (C4_decrypt_success_writes_output (fun _ => True) Ctl.init pick_eboot_self
      Reachable.init (by decide) (by decide) (by decide) (by decide)).2.1,
    (C4_decrypt_success_writes_output (fun _ => True) Ctl.init pick_eboot_self
      Reachable.init (by decide) (by decide) (by decide) (by decide)).2.2.2⟩

/-! ## C5 -/

/-- C5: in a frame whose decrypt step runs in state `DECRYPT` with
`decrypt_fself` returning an empty byte sequence, the state becomes `FAIL`,
the frame calls `create_directories` not at all and writes no file, and the
recorded artifact path is the one the frame started with. -/
theorem C5_decrypt_failure_writes_nothing (s : Ctl) (i : FrameInput)
    (hst : (acquire i s).ctl.state = State.DECRYPT) (hshown : i.popup = PopupResult.shown)
    (hout : i.decrypt_fself = []) :
    (draw_self_decrypt_dialog i s).ctl.state = State.FAIL ∧
      (∀ e ∈ (draw_self_decrypt_dialog i s).events, e.is_output = false) ∧
      outfile_writes (draw_self_decrypt_dialog i s).events = [] ∧
      files_written (draw_self_decrypt_dialog i s).events = [] ∧
      (draw_self_decrypt_dialog i s).ctl.decrypted_path = s.decrypted_path := by
  obtain ⟨a1, a2, a3, a4⟩ := acquire_no_output i s
  obtain ⟨r1, r2, r3⟩ :=
    render_decrypt_failure i (acquire i s).dialog (acquire i s).ctl hst hshown hout
  refine ⟨r1, ?_, ?_, ?_, ?_⟩
  · intro e he
    simp only [draw_self_decrypt_dialog] at he
    rcases List.mem_append.1 he with he | he
    · exact (a1 e he).1
    · rw [r2] at he
      simp at he
      subst he
      rfl
  · rw [show (draw_self_decrypt_dialog i s).events =
      (acquire i s).events ++ (render i (acquire i s).dialog (acquire i s).ctl).events
      from rfl, outfile_writes_append, a2, r2]
    rfl
  · rw [show (draw_self_decrypt_dialog i s).events =
      (acquire i s).events ++ (render i (acquire i s).dialog (acquire i s).ctl).events
      from rfl, files_written_append, a3, r2]
    rfl
  · simpa [draw_self_decrypt_dialog, a4] using r3

/-- C5 at `eboot.self` with a license that loads and a decryptor that returns nothing. -/
theorem C5_decrypt_failure_writes_nothing_witness :
    ((acquire pick_eboot_self_decrypt_fails Ctl.init).ctl.state = State.DECRYPT ∧
      pick_eboot_self_decrypt_fails.popup = PopupResult.shown ∧
      pick_eboot_self_decrypt_fails.decrypt_fself = []) ∧
    (draw_self_decrypt_dialog pick_eboot_self_decrypt_fails Ctl.init).ctl.state =
      State.FAIL ∧
    files_written (draw_self_decrypt_dialog pick_eboot_self_decrypt_fails Ctl.init).events
      = [] :=
  ⟨by decide,
    (C5_decrypt_failure_writes_nothing Ctl.init pick_eboot_self_decrypt_fails
      (by decide) (by decide) (by decide)).1,
    (C5_decrypt_failure_writes_nothing Ctl.init pick_eboot_self_decrypt_fails
      (by decide) (by decide) (by decide)).2.2.2.1⟩

/-! ## Frames without an acquisition, and the license after the decrypt step -/

theorem draw_no_decrypt (i : FrameInput) (s : Ctl) (hna : acquires i s = false)
    (h : s.state ≠ State.DECRYPT) :
    (draw_self_decrypt_dialog i s).ctl.state ≠ State.DECRYPT ∧
      ∀ e ∈ (draw_self_decrypt_dialog i s).events, e.is_decrypt = false := by
  obtain ⟨a1, a2⟩ := acquire_of_not_acquires i s hna
  simp only [draw_self_decrypt_dialog, a1]
  constructor
  · rcases s with ⟨sp, lp, t, dfd, st, fs, lic, sf, dp⟩
    simp only at h
    cases hp : i.popup <;> cases st <;> cases hok : i.ok_button <;>
      simp_all [render, popup_body]
  · intro e he
    rcases List.mem_append.1 he with he | he
    · rcases a2 _ he with h' | h' <;> subst h' <;> rfl
    · rcases render_events i (acquire i s).dialog s with h' | ⟨_, h', _⟩
      · rw [h'] at he; simp at he
      · exact absurd h' h

/-- The two exits of the decrypt step that return: `SUCCESS` and `FAIL`. -/
theorem render_decrypt (i : FrameInput) (d : Bool) (s : Ctl)
    (hst : s.state = State.DECRYPT) (hshown : i.popup = PopupResult.shown)
    (hret : i.decrypt_fself = [] ∨ i.persistence ≠ Persistence.directory_error) :
    ((render i d s).ctl.state = State.SUCCESS ∨ (render i d s).ctl.state = State.FAIL) ∧
      (render i d s).ctl.fself = [] ∧
      (render i d s).ctl.license = SceNpDrmLicense.zero := by
  rcases s with ⟨sp, lp, t, dfd, st, fs, lic, sf, dp⟩
  simp only at hst
  subst hst
  by_cases hout : i.decrypt_fself = [] <;>
    by_cases hdir : i.persistence = Persistence.directory_error <;>
    simp_all [render, popup_body, decrypt_step]

/-- The exit of the decrypt step by an exception of `fs::create_directories`:
the state is still `DECRYPT`, `fself` holds the decryptor's output, the
artifact path is set and the license is kept. -/
theorem render_decrypt_throw (i : FrameInput) (d : Bool) (s : Ctl)
    (hst : s.state = State.DECRYPT) (hshown : i.popup = PopupResult.shown)
    (hout : i.decrypt_fself ≠ []) (hdir : i.persistence = Persistence.directory_error) :
    (render i d s).ctl =
        { s with fself := i.decrypt_fself,
                 decrypted_path := output_path i.cache_path s.self_file } ∧
      (render i d s).events =
        [Event.decrypt_fself s.fself s.license.key,
          Event.create_directories (output_path i.cache_path s.self_file).stem,
          Event.filesystem_error] := by
  rcases s with ⟨sp, lp, t, dfd, st, fs, lic, sf, dp⟩
  simp only at hst
  subst hst
  simp [render, popup_body, decrypt_step, hshown, hout, hdir]

theorem acquire_license_field (i : FrameInput) (s : Ctl) :
    (acquire i s).ctl.license = s.license ∨
      Event.open_license i.license_chosen ∈ (acquire i s).events := by
  cases hd : s.draw_file_dialog <;> cases hr : i.self_result <;>
    cases he : i.is_fself_encrypted <;> cases ha : i.is_fself_app <;>
    cases hl : i.license_result <;> cases ho : i.open_license <;>
    simp [acquire, acquire_license, hd, hr, he, ha, hl, ho]

theorem render_license_field (i : FrameInput) (d : Bool) (s : Ctl) :
    (render i d s).ctl.license = s.license ∨
      (render i d s).ctl.license = SceNpDrmLicense.zero := by
  rcases s with ⟨sp, lp, t, dfd, st, fs, lic, sf, dp⟩
  cases hp : i.popup <;> cases st <;> cases hok : i.ok_button <;>
    by_cases hout : i.decrypt_fself = [] <;>
    by_cases hdir : i.persistence = Persistence.directory_error <;>
    simp [render, popup_body, decrypt_step, hp, hok, hout, hdir]

theorem draw_license_zero (i : FrameInput) (s : Ctl) (h : s.license = SceNpDrmLicense.zero)
    (hev : ∀ p, Event.open_license p ∉ (draw_self_decrypt_dialog i s).events) :
    (draw_self_decrypt_dialog i s).ctl.license = SceNpDrmLicense.zero := by
  have ha : (acquire i s).ctl.license = SceNpDrmLicense.zero := by
    rcases acquire_license_field i s with h' | h'
    · rw [h', h]
    · exact absurd (List.mem_append_left _ h') (hev i.license_chosen)
  rcases render_license_field i (acquire i s).dialog (acquire i s).ctl with h' | h'
  · simpa [draw_self_decrypt_dialog, ha] using h'
  · simpa [draw_self_decrypt_dialog] using h'

theorem run_license_zero (rest : List FrameInput) : ∀ (s : Ctl),
    s.license = SceNpDrmLicense.zero →
    (∀ p, Event.open_license p ∉ (run s rest).2) →
    (run s rest).1.license = SceNpDrmLicense.zero := by
  induction rest with
  | nil => intro s h _; simpa [run] using h
  | cons j rest ih =>
    intro s h hev
    have h1 : ∀ p, Event.open_license p ∉ (draw_self_decrypt_dialog j s).events :=
      fun p hp => hev p (by simp only [run]; exact List.mem_append_left _ hp)
    have h2 : ∀ p, Event.open_license p ∉ (run (draw_self_decrypt_dialog j s).ctl rest).2 :=
      fun p hp => hev p (by simp only [run]; exact List.mem_append_right _ hp)
    simpa [run] using ih _ (draw_license_zero j s h h1) h2

/-! ## C6 -/

/-- C6 fails on the code at `eboot.self` (encrypted, application), chosen in
the initial statics.  When the license picker is cancelled the frame ends in
`UNDEFINED` with the three bytes of the file still in `fself`; when the
license fails to load the frame ends in `FAIL` with those bytes still in
`fself`. -/
theorem C6_buffer_kept_after_license_cancel_or_failure :
    Reachable FailedLicenseKeyEmpty
        (draw_self_decrypt_dialog pick_eboot_cancel_license Ctl.init).ctl ∧
      (draw_self_decrypt_dialog pick_eboot_cancel_license Ctl.init).ctl.state =
        State.UNDEFINED ∧
      (draw_self_decrypt_dialog pick_eboot_cancel_license Ctl.init).ctl.fself = [7, 7, 7] ∧
      Reachable FailedLicenseKeyEmpty
        (draw_self_decrypt_dialog pick_eboot_bad_license Ctl.init).ctl ∧
      (draw_self_decrypt_dialog pick_eboot_bad_license Ctl.init).ctl.state = State.FAIL ∧
      (draw_self_decrypt_dialog pick_eboot_bad_license Ctl.init).ctl.fself = [7, 7, 7] :=
  ⟨Reachable.frame _ _ Reachable.init (by decide), by decide, by decide,
    Reachable.frame _ _ Reachable.init (by decide), by decide, by decide⟩

/-! ## C7 -/

/-- C7 fails on the code after a license that did not load: `eboot.self`
(encrypted, application) is chosen in the initial statics, `open_license`
fails and the frame ends in `FAIL`; the user then presses OK.  The state is
`UNDEFINED`, the dialog flag is closed, the file gate is armed, the key, the
file name and the three paths are empty, but `fself` still holds the three
bytes of the file. -/
theorem C7_buffer_kept_after_acknowledged_license_failure :
    (draw_self_decrypt_dialog pick_eboot_bad_license Ctl.init).ctl.state = State.FAIL ∧
      acknowledges press_ok = true ∧
      (draw_self_decrypt_dialog press_ok
        (draw_self_decrypt_dialog pick_eboot_bad_license Ctl.init).ctl) =
        { ctl :=
            { self_path := []
              license_path := []
              title := "Decrypt Failed"
              draw_file_dialog := true
              state := State.UNDEFINED
              fself := [7, 7, 7]
              license := SceNpDrmLicense.zero
              self_file := ""
              decrypted_path := [] }
          dialog := false
          events := [] } := by
  decide

/-! ## A cancelled license picker -/

/-- A frame in which, for an encrypted application package, the license picker
is cancelled: the state is `UNDEFINED`, the file gate is disarmed, the popup is
not opened and nothing is decrypted or written.  The function does not write
the dialog flag on this path: it ends as `BeginPopupModal` leaves it. -/
theorem draw_license_cancel (s : Ctl) (i : FrameInput)
    (harm : s.draw_file_dialog = true) (hpick : i.self_result = Result.SUCCESS)
    (henc : i.is_fself_encrypted = true) (happ : i.is_fself_app = true)
    (hlic : i.license_result = Result.CANCEL) :
    (draw_self_decrypt_dialog i s).ctl.state = State.UNDEFINED ∧
      (draw_self_decrypt_dialog i s).ctl.draw_file_dialog = false ∧
      (draw_self_decrypt_dialog i s).events =
        [Event.open_file_self, Event.read_infile i.self_chosen,
          Event.is_fself_encrypted i.infile, Event.is_fself_app i.infile,
          Event.open_file_license] ∧
      (draw_self_decrypt_dialog i s).dialog =
        if i.popup = PopupResult.closed then false else i.self_decrypt_dialog := by
  rcases s with ⟨sp, lp, t, dfd, st, fs, lic, sf, dp⟩
  simp only at harm
  subst harm
  cases hp : i.popup <;>
    simp [draw_self_decrypt_dialog, acquire, acquire_license, render, popup_body,
      hpick, henc, happ, hlic, hp]

/-! ## C9 -/

/-- C10 as stated fails at `eboot.self`, chosen in the initial statics with a
license that loads (key `[1, 2, 3, 4]`) and a decryptor that returns three
bytes, when `fs::create_directories` throws: the decrypt step has run and the
frame ends with the key still in the license, and the key is still there after
a later frame in which `open_license` is not called. -/
theorem C10_counterexample :
    (acquire pick_eboot_self_directory_error Ctl.init).ctl.state = State.DECRYPT ∧
      pick_eboot_self_directory_error.popup = PopupResult.shown ∧
      pick_eboot_self_directory_error.decrypt_fself ≠ [] ∧
      (draw_self_decrypt_dialog pick_eboot_self_directory_error Ctl.init).ctl.license.key =
        [1, 2, 3, 4] ∧
      (run (draw_self_decrypt_dialog pick_eboot_self_directory_error Ctl.init).ctl
        [quiet_frame]).2 = [] ∧
      (run (draw_self_decrypt_dialog pick_eboot_self_directory_error Ctl.init).ctl
        [quiet_frame]).1.license.key = [1, 2, 3, 4] := by
  decide

/-- C10 (amended): a frame whose render step is reached in state `DECRYPT`
with the popup shown, and in which the decryptor's output is empty or
`fs::create_directories` returns, ends with the license equal to the
value-initialised one, on the success and on the failure path; and the
license is still that value after any later frames in which `open_license` is
not called again. -/
theorem C10_license_zeroed_after_decrypt (s : Ctl) (i : FrameInput)
    (rest : List FrameInput)
    (hst : (acquire i s).ctl.state = State.DECRYPT) (hshown : i.popup = PopupResult.shown)
    (hret : i.decrypt_fself = [] ∨ i.persistence ≠ Persistence.directory_error) :
    (draw_self_decrypt_dialog i s).ctl.license = SceNpDrmLicense.zero ∧
      (draw_self_decrypt_dialog i s).ctl.license.key = [] ∧
      ((∀ p, Event.open_license p ∉ (run (draw_self_decrypt_dialog i s).ctl rest).2) →
        (run (draw_self_decrypt_dialog i s).ctl rest).1.license = SceNpDrmLicense.zero) := by
  obtain ⟨_, _, r3⟩ :=
    render_decrypt i (acquire i s).dialog (acquire i s).ctl hst hshown hret
  have h0 : (draw_self_decrypt_dialog i s).ctl.license = SceNpDrmLicense.zero := r3
  refine ⟨h0, ?_, ?_⟩
  · rw [h0]; rfl
  · intro hev
    exact run_license_zero rest _ h0 hev

/-- C10 (amended) at `eboot.self` with a license that loads: the key
`[1, 2, 3, 4]` is gone after the frame, and still after an acknowledgement and
a run on `np.suprx`. -/
theorem C10_license_zeroed_after_decrypt_witness :
    ((acquire pick_eboot_self Ctl.init).ctl.state = State.DECRYPT ∧
      (acquire pick_eboot_self Ctl.init).ctl.license.key = [1, 2, 3, 4] ∧
      pick_eboot_self.popup = PopupResult.shown ∧
      pick_eboot_self.persistence ≠ Persistence.directory_error ∧
      ∀ p, Event.open_license p ∉
        (run (draw_self_decrypt_dialog pick_eboot_self Ctl.init).ctl
          [press_ok, pick_np_suprx]).2) ∧
    (draw_self_decrypt_dialog pick_eboot_self Ctl.init).ctl.license =
      SceNpDrmLicense.zero ∧
    (run (draw_self_decrypt_dialog pick_eboot_self Ctl.init).ctl
      [press_ok, pick_np_suprx]).1.license = SceNpDrmLicense.zero :=
  have hev : ∀ p, Event.open_license p ∉
      (run (draw_self_decrypt_dialog pick_eboot_self Ctl.init).ctl
        [press_ok, pick_np_suprx]).2 := by
    intro p hp
    have h : (run (draw_self_decrypt_dialog pick_eboot_self Ctl.init).ctl
        [press_ok, pick_np_suprx]).2 =
        [Event.open_file_self, Event.read_infile ["home", "np.suprx"],
          Event.is_fself_encrypted [9, 9], Event.is_fself_app [9, 9], Event.open_popup,
          Event.decrypt_fself [9, 9] [],
          Event.create_directories ["np"],
          Event.outfile_write ["cache", "decrypted_self", "np.suprx"] [4, 2] true] := by
      decide
    rw [h] at hp
    simp at hp
  ⟨⟨by decide, by decide, by decide, by decide, hev⟩,
    (C10_license_zeroed_after_decrypt Ctl.init pick_eboot_self [press_ok, pick_np_suprx]
      (by decide) (by decide) (Or.inr (by decide))).1,
    (C10_license_zeroed_after_decrypt Ctl.init pick_eboot_self [press_ok, pick_np_suprx]
      (by decide) (by decide) (Or.inr (by decide))).2.2 hev⟩

/-! ## The gate and the artifact in reachable statics -/

theorem gateInv_init : GateInv Ctl.init := by
  simp [GateInv, Ctl.init]

theorem gateInv_acquire (i : FrameInput) (s : Ctl) (h : GateInv s) :
    GateInv (acquire i s).ctl := by
  rcases s with ⟨sp, lp, t, dfd, st, fs, lic, sf, dp⟩
  obtain ⟨h1, h2, h3⟩ := h
  simp only at h1 h2 h3
  cases dfd
  · simpa [acquire, GateInv] using ⟨h2, h3⟩
  · have hst : st = State.UNDEFINED := h1 rfl
    subst hst
    have hp : dp = [] := by
      by_contra hne
      rcases h3 hne with h | h | h <;> cases h
    subst hp
    cases hr : i.self_result <;> cases he : i.is_fself_encrypted <;>
      cases ha : i.is_fself_app <;> cases hl : i.license_result <;>
      cases ho : i.open_license <;>
      simp [acquire, acquire_license, GateInv, hr, he, ha, hl, ho]

theorem gateInv_render (i : FrameInput) (d : Bool) (s : Ctl) (h : GateInv s) :
    GateInv (render i d s).ctl := by
  rcases s with ⟨sp, lp, t, dfd, st, fs, lic, sf, dp⟩
  obtain ⟨h1, h2, h3⟩ := h
  simp only at h1 h2 h3
  cases hp : i.popup <;> cases st <;> cases hok : i.ok_button <;>
    by_cases hout : i.decrypt_fself = [] <;>
    by_cases hdir : i.persistence = Persistence.directory_error <;>
    simp_all [render, popup_body, decrypt_step, GateInv, output_path, Path.join]

/-- In every reachable statics the armed gate implies `UNDEFINED`, `SUCCESS`
has an artifact recorded, and an artifact is recorded in `SUCCESS`, `DECRYPT`
or `FAIL` only. -/
theorem gateInv_of_reachable (P : FrameInput → Prop) (s : Ctl) (h : Reachable P s) :
    GateInv s := by
  induction h with
  | init => exact gateInv_init
  | frame i s _ _ ih =>
    simpa [draw_self_decrypt_dialog] using gateInv_render i _ _ (gateInv_acquire i s ih)

theorem artifactInv_init : ArtifactInv Ctl.init := by
  simp [ArtifactInv, Ctl.init]

theorem artifactInv_acquire (i : FrameInput) (s : Ctl) (h : ArtifactInv s) :
    ArtifactInv (acquire i s).ctl := by
  rcases s with ⟨sp, lp, t, dfd, st, fs, lic, sf, dp⟩
  obtain ⟨h1, h2⟩ := h
  simp only at h1 h2
  cases dfd
  · simpa [acquire, ArtifactInv] using h2
  · have hst : st = State.UNDEFINED := h1 rfl
    subst hst
    have hp : dp = [] := by
      by_contra hne
      exact absurd (h2.1 hne) (by decide)
    subst hp
    cases hr : i.self_result <;> cases he : i.is_fself_encrypted <;>
      cases ha : i.is_fself_app <;> cases hl : i.license_result <;>
      cases ho : i.open_license <;>
      simp [acquire, acquire_license, ArtifactInv, hr, he, ha, hl, ho]

theorem artifactInv_render (i : FrameInput) (d : Bool) (s : Ctl) (hi : NoThrow i)
    (h : ArtifactInv s) : ArtifactInv (render i d s).ctl := by
  rcases s with ⟨sp, lp, t, dfd, st, fs, lic, sf, dp⟩
  obtain ⟨h1, h2⟩ := h
  simp only at h1 h2
  unfold NoThrow at hi
  cases hp : i.popup <;> cases st <;> cases hok : i.ok_button <;>
    by_cases hout : i.decrypt_fself = [] <;>
    simp_all [render, popup_body, decrypt_step, ArtifactInv, output_path, Path.join]

/-- In every statics reachable by frames in which `fs::create_directories`
does not throw, an artifact is recorded exactly in `SUCCESS`. -/
theorem artifactInv_of_reachable (s : Ctl) (h : Reachable NoThrow s) : ArtifactInv s := by
  induction h with
  | init => exact artifactInv_init
  | frame i s _ hi ih =>
    simpa [draw_self_decrypt_dialog] using
      artifactInv_render i _ _ hi (artifactInv_acquire i s ih)

theorem reachable_mono (P Q : FrameInput → Prop) (hPQ : ∀ i, P i → Q i) (s : Ctl)
    (h : Reachable P s) : Reachable Q s := by
  induction h with
  | init => exact Reachable.init
  | frame i s _ hi ih => exact Reachable.frame i s ih (hPQ i hi)

/-- A frame whose picker is cancelled or fails, from armed statics in `UNDEFINED`. -/
theorem draw_picker_not_success (i : FrameInput) (s : Ctl)
    (harm : s.draw_file_dialog = true) (hst : s.state = State.UNDEFINED)
    (hres : i.self_result = Result.CANCEL ∨ i.self_result = Result.ERROR) :
    (draw_self_decrypt_dialog i s).ctl = s ∧ (draw_self_decrypt_dialog i s).dialog = false ∧
      (draw_self_decrypt_dialog i s).events =
        if i.self_result = Result.ERROR then [Event.open_file_self, Event.log_error]
        else [Event.open_file_self] := by
  rcases s with ⟨sp, lp, t, dfd, st, fs, lic, sf, dp⟩
  simp only at harm hst
  subst harm hst
  rcases hres with h | h <;> cases hp : i.popup <;>
    simp [draw_self_decrypt_dialog, acquire, render, popup_body, h, hp]

/-! ## C11 -/

/-- C11: in every reachable statics with the file gate armed, a frame whose
file picker returns `ERROR` and a frame whose file picker returns `CANCEL`
end in the same statics, which are the statics the frame started with: the
state is still `UNDEFINED`, the gate is armed again, and buffer, key, file
name and artifact path are unchanged.  Both end with the dialog flag closed,
and neither calls anything but the file picker (and, on `ERROR`, the log):
no classifier, no license gate, no decryptor. -/
theorem C11_picker_error_like_cancel (P : FrameInput → Prop) (s : Ctl)
    (ic ie : FrameInput) (hreach : Reachable P s) (harm : s.draw_file_dialog = true)
    (hc : ic.self_result = Result.CANCEL) (he : ie.self_result = Result.ERROR) :
    (draw_self_decrypt_dialog ie s).ctl = (draw_self_decrypt_dialog ic s).ctl ∧
      (draw_self_decrypt_dialog ic s).ctl = s ∧
      s.state = State.UNDEFINED ∧
      (draw_self_decrypt_dialog ic s).dialog = false ∧
      (draw_self_decrypt_dialog ie s).dialog = false ∧
      (draw_self_decrypt_dialog ic s).events = [Event.open_file_self] ∧
      (draw_self_decrypt_dialog ie s).events = [Event.open_file_self, Event.log_error] := by
  have hst : s.state = State.UNDEFINED := (gateInv_of_reachable P s hreach).1 harm
  obtain ⟨c1, c2, c3⟩ := draw_picker_not_success ic s harm hst (Or.inl hc)
  obtain ⟨e1, e2, e3⟩ := draw_picker_not_success ie s harm hst (Or.inr he)
  refine ⟨by rw [c1, e1], c1, hst, c2, e2, ?_, ?_⟩
  · simpa [hc] using c3
  · simpa [he] using e3

/-- C11 after a run whose license did not load: the leftover bytes, like every
other field, are the same after a cancelled and after a failed file picker. -/
theorem C11_picker_error_like_cancel_witness :
    (Reachable (fun _ => True) after_failed_license_run ∧
      after_failed_license_run.draw_file_dialog = true ∧
      quiet_frame.self_result = Result.CANCEL ∧ picker_error.self_result = Result.ERROR) ∧
    (draw_self_decrypt_dialog picker_error after_failed_license_run).ctl =
      (draw_self_decrypt_dialog quiet_frame after_failed_license_run).ctl ∧
    (draw_self_decrypt_dialog quiet_frame after_failed_license_run).ctl =
      after_failed_license_run ∧
    (draw_self_decrypt_dialog picker_error after_failed_license_run).dialog = false :=
  have hreach : Reachable (fun _ => True) after_failed_license_run :=
    Reachable.frame press_ok _
      (Reachable.frame pick_eboot_bad_license _ Reachable.init trivial) trivial
  ⟨⟨hreach, by decide, by decide, by decide⟩,
    (C11_picker_error_like_cancel (fun _ => True) after_failed_license_run
      quiet_frame picker_error hreach (by decide) (by decide) (by decide)).1,
    (C11_picker_error_like_cancel (fun _ => True) after_failed_license_run
      quiet_frame picker_error hreach (by decide) (by decide) (by decide)).2.1,
    (C11_picker_error_like_cancel (fun _ => True) after_failed_license_run
      quiet_frame picker_error hreach (by decide) (by decide) (by decide)).2.2.2.2.1⟩

/-! ## Frames without an acknowledgement -/

theorem acquire_disarmed (i : FrameInput) (s : Ctl) (h : s.draw_file_dialog = false) :
    acquire i s = { ctl := s, dialog := i.self_decrypt_dialog, events := [] } := by
  simp [acquire, h]

theorem acquire_success_disarms (i : FrameInput) (s : Ctl)
    (h : s.draw_file_dialog = false ∨ i.self_result = Result.SUCCESS) :
    (acquire i s).ctl.draw_file_dialog = false := by
  cases hd : s.draw_file_dialog
  · simp [acquire, hd]
  · have hr : i.self_result = Result.SUCCESS := by
      rcases h with h | h
      · rw [hd] at h; cases h
      · exact h
    cases he : i.is_fself_encrypted <;> cases ha : i.is_fself_app <;>
      cases hl : i.license_result <;> cases ho : i.open_license <;>
      simp [acquire, acquire_license, hd, hr, he, ha, hl, ho]

theorem render_unacknowledged (i : FrameInput) (d : Bool) (s : Ctl)
    (hd : s.draw_file_dialog = false)
    (hack : (i.popup == PopupResult.shown && i.ok_button && s.state.is_terminal) = false) :
    (render i d s).ctl.draw_file_dialog = false ∧
      (s.state ≠ State.DECRYPT → (render i d s).ctl.state = s.state) := by
  rcases s with ⟨sp, lp, t, dfd, st, fs, lic, sf, dp⟩
  simp only at hd
  subst hd
  cases hp : i.popup <;> cases st <;> cases hok : i.ok_button <;>
    by_cases hout : i.decrypt_fself = [] <;>
    by_cases hdir : i.persistence = Persistence.directory_error <;>
    simp_all [render, popup_body, decrypt_step, State.is_terminal]

theorem draw_unacknowledged (i : FrameInput) (s : Ctl)
    (h : s.draw_file_dialog = false ∨ i.self_result = Result.SUCCESS)
    (hack : acknowledged i s = false) :
    (draw_self_decrypt_dialog i s).ctl.draw_file_dialog = false ∧
      ((acquire i s).ctl.state ≠ State.DECRYPT →
        (draw_self_decrypt_dialog i s).ctl.state = (acquire i s).ctl.state) :=
  render_unacknowledged i (acquire i s).dialog (acquire i s).ctl
    (acquire_success_disarms i s h) hack

theorem run_unacknowledged (rest : List FrameInput) : ∀ (s : Ctl),
    s.draw_file_dialog = false → NoAck s rest →
    (run s rest).1.draw_file_dialog = false ∧
      (s.state ≠ State.DECRYPT → (run s rest).1.state = s.state) ∧
      NoAcquire s rest := by
  induction rest with
  | nil => intro s hd _; simp [run, hd, NoAcquire]
  | cons j rest ih =>
    intro s hd hna
    obtain ⟨d1, d2⟩ := draw_unacknowledged j s (Or.inl hd) hna.1
    obtain ⟨k1, k2, k3⟩ := ih _ d1 hna.2
    have ha : (acquire j s).ctl = s := by rw [acquire_disarmed j s hd]
    rw [ha] at d2
    refine ⟨by simpa [run] using k1, ?_, ?_, k3⟩
    · intro hs
      have h1 := d2 hs
      have h2 := k2 (by rw [h1]; exact hs)
      simpa [run, h1] using h2
    · simp [acquires, hd]

/-- A frame that acquires no file and does not start in `DECRYPT` calls at
most the file picker and the log. -/
theorem draw_quiet (i : FrameInput) (s : Ctl) (hna : acquires i s = false)
    (h : s.state ≠ State.DECRYPT) :
    ∀ e ∈ (draw_self_decrypt_dialog i s).events,
      e = Event.open_file_self ∨ e = Event.log_error := by
  obtain ⟨a1, a2⟩ := acquire_of_not_acquires i s hna
  intro e he
  simp only [draw_self_decrypt_dialog, a1] at he
  rcases List.mem_append.1 he with he | he
  · exact a2 e he
  · rcases render_events i (acquire i s).dialog s with h' | ⟨_, h', _⟩
    · rw [h'] at he; simp at he
    · exact absurd h' h

theorem run_quiet (rest : List FrameInput) : ∀ (s : Ctl),
    s.state ≠ State.DECRYPT → NoAcquire s rest →
    ∀ e ∈ (run s rest).2, e = Event.open_file_self ∨ e = Event.log_error := by
  induction rest with
  | nil => intro s _ _ e he; simp [run] at he
  | cons j rest ih =>
    intro s h hna e he
    simp only [run] at he
    rcases List.mem_append.1 he with he | he
    · exact draw_quiet j s hna.1 h e he
    · exact ih _ (draw_no_decrypt j s hna.1 h).1 hna.2 e he

/-- The acquisition step when the license is picked but does not load. -/
theorem acquire_license_failure (i : FrameInput) (s : Ctl)
    (harm : s.draw_file_dialog = true) (hpick : i.self_result = Result.SUCCESS)
    (henc : i.is_fself_encrypted = true) (happ : i.is_fself_app = true)
    (hlic : i.license_result = Result.SUCCESS) (hfail : i.open_license = false) :
    (acquire i s).ctl.state = State.FAIL ∧
      (acquire i s).events = [Event.open_file_self, Event.read_infile i.self_chosen,
        Event.is_fself_encrypted i.infile, Event.is_fself_app i.infile,
        Event.open_file_license, Event.open_license i.license_chosen, Event.log_error,
        Event.open_popup] := by
  simp [acquire, acquire_license, harm, hpick, henc, happ, hlic, hfail]

/-! ## C12 -/

/-- C12: when, for an encrypted application package, the license picker
succeeds but `open_license` fails, the acquisition step leaves `FAIL`; the
frame calls neither `decrypt_fself` nor the persistence step; the frames after
it call none of `decrypt_fself`, the persistence step and the license gate
until a frame acquires a new file; and as long as the user does not
acknowledge, the state stays `FAIL` and no frame acquires a file. -/
theorem C12_license_failure_is_fatal (s : Ctl) (i : FrameInput) (rest : List FrameInput)
    (harm : s.draw_file_dialog = true) (hpick : i.self_result = Result.SUCCESS)
    (henc : i.is_fself_encrypted = true) (happ : i.is_fself_app = true)
    (hlic : i.license_result = Result.SUCCESS) (hfail : i.open_license = false) :
    (acquire i s).ctl.state = State.FAIL ∧
      (∀ e ∈ (draw_self_decrypt_dialog i s).events,
        e.is_decrypt = false ∧ e.is_output = false) ∧
      (NoAcquire (draw_self_decrypt_dialog i s).ctl rest →
        ∀ e ∈ (run (draw_self_decrypt_dialog i s).ctl rest).2,
          e.is_decrypt = false ∧ e.is_output = false ∧ e.is_license_gate = false) ∧
      (NoAck s (i :: rest) →
        (run s (i :: rest)).1.state = State.FAIL ∧
        NoAcquire (draw_self_decrypt_dialog i s).ctl rest) := by
  obtain ⟨a1, a2⟩ := acquire_license_failure i s harm hpick henc happ hlic hfail
  have hne : (acquire i s).ctl.state ≠ State.DECRYPT := by rw [a1]; decide
  have hrender : (render i (acquire i s).dialog (acquire i s).ctl).events = [] := by
    rcases render_events i (acquire i s).dialog (acquire i s).ctl with h | ⟨_, h, _⟩
    · exact h
    · exact absurd h hne
  have hafter : (draw_self_decrypt_dialog i s).ctl.state ≠ State.DECRYPT := by
    show (render i (acquire i s).dialog (acquire i s).ctl).ctl.state ≠ State.DECRYPT
    generalize acquire i s = a at a1
    rcases a with ⟨⟨sp, lp, t, dfd, st, fs, lic, sf, dp⟩, d, ev⟩
    simp only at a1
    subst a1
    cases hp : i.popup <;> cases hok : i.ok_button <;> simp [render, popup_body, hp, hok]
  refine ⟨a1, ?_, ?_, ?_⟩
  · intro e he
    simp only [draw_self_decrypt_dialog, hrender, List.append_nil] at he
    exact ⟨((acquire_no_output i s).1 e he).2, ((acquire_no_output i s).1 e he).1⟩
  · intro hna e he
    rcases run_quiet rest _ hafter hna e he with h | h <;> subst h <;>
      simp [Event.is_decrypt, Event.is_output, Event.is_license_gate]
  · intro hnoack
    obtain ⟨d1, d2⟩ := draw_unacknowledged i s (Or.inr hpick) hnoack.1
    have hst : (draw_self_decrypt_dialog i s).ctl.state = State.FAIL := by
      rw [d2 hne, a1]
    obtain ⟨k1, k2, k3⟩ := run_unacknowledged rest _ d1 hnoack.2
    refine ⟨?_, k3⟩
    have := k2 hafter
    simpa [run, hst] using this

/-- C12 at `eboot.self` with a license that does not load, followed by two
frames in which the popup is shown and nothing is pressed. -/
theorem C12_license_failure_is_fatal_witness :
    (Ctl.init.draw_file_dialog = true ∧
      pick_eboot_bad_license.self_result = Result.SUCCESS ∧
      pick_eboot_bad_license.is_fself_encrypted = true ∧
      pick_eboot_bad_license.is_fself_app = true ∧
      pick_eboot_bad_license.license_result = Result.SUCCESS ∧
      pick_eboot_bad_license.open_license = false ∧
      NoAck Ctl.init (pick_eboot_bad_license :: [idle_frame, idle_frame]) ∧
      NoAcquire (draw_self_decrypt_dialog pick_eboot_bad_license Ctl.init).ctl
        [idle_frame, idle_frame]) ∧
    (acquire pick_eboot_bad_license Ctl.init).ctl.state = State.FAIL ∧
    (∀ e ∈ (run (draw_self_decrypt_dialog pick_eboot_bad_license Ctl.init).ctl
        [idle_frame, idle_frame]).2,
      e.is_decrypt = false ∧ e.is_output = false ∧ e.is_license_gate = false) ∧
    (run Ctl.init (pick_eboot_bad_license :: [idle_frame, idle_frame])).1.state =
      State.FAIL :=
  ⟨by decide,
    (C12_license_failure_is_fatal Ctl.init pick_eboot_bad_license [idle_frame, idle_frame]
      (by decide) (by decide) (by decide) (by decide) (by decide) (by decide)).1,
    (C12_license_failure_is_fatal Ctl.init pick_eboot_bad_license [idle_frame, idle_frame]
      (by decide) (by decide) (by decide) (by decide) (by decide) (by decide)).2.2.1
      (by decide),
    ((C12_license_failure_is_fatal Ctl.init pick_eboot_bad_license [idle_frame, idle_frame]
      (by decide) (by decide) (by decide) (by decide) (by decide) (by decide)).2.2.2
      (by decide)).1⟩

/-! ## Statics that frames do not tell apart -/

theorem alike_acquire (i : FrameInput) (s t : Ctl) (h : Alike s t) :
    Alike (acquire i s).ctl (acquire i t).ctl ∧
      (acquire i s).dialog = (acquire i t).dialog ∧
      (acquire i s).events = (acquire i t).events := by
  rcases s with ⟨sp, lp, tt, dfd, st, fs, lic, sf, dp⟩
  rcases t with ⟨sp', lp', tt', dfd', st', fs', lic', sf', dp'⟩
  obtain ⟨h1, h2, h3, h4⟩ := h
  simp only at h1 h2 h3 h4
  subst h1 h2
  cases dfd <;> cases hr : i.self_result <;> cases he : i.is_fself_encrypted <;>
    cases ha : i.is_fself_app <;> cases hl : i.license_result <;>
    cases ho : i.open_license <;>
    simp_all [acquire, acquire_license, Alike]

theorem alike_render (i : FrameInput) (d : Bool) (s t : Ctl) (h : Alike s t) :
    Alike (render i d s).ctl (render i d t).ctl ∧
      (render i d s).dialog = (render i d t).dialog ∧
      (render i d s).events = (render i d t).events := by
  rcases s with ⟨sp, lp, tt, dfd, st, fs, lic, sf, dp⟩
  rcases t with ⟨sp', lp', tt', dfd', st', fs', lic', sf', dp'⟩
  obtain ⟨h1, h2, h3, h4⟩ := h
  simp only at h1 h2 h3 h4
  subst h1 h2
  cases hp : i.popup <;> cases st <;> cases hok : i.ok_button <;>
    by_cases hout : i.decrypt_fself = [] <;>
    by_cases hdir : i.persistence = Persistence.directory_error <;>
    simp_all [render, popup_body, decrypt_step, Alike]

theorem alike_draw (i : FrameInput) (s t : Ctl) (h : Alike s t) :
    Alike (draw_self_decrypt_dialog i s).ctl (draw_self_decrypt_dialog i t).ctl ∧
      (draw_self_decrypt_dialog i s).dialog = (draw_self_decrypt_dialog i t).dialog ∧
      (draw_self_decrypt_dialog i s).events = (draw_self_decrypt_dialog i t).events := by
  obtain ⟨a1, a2, a3⟩ := alike_acquire i s t h
  obtain ⟨r1, r2, r3⟩ := alike_render i (acquire i s).dialog _ _ a1
  show Alike (render i (acquire i s).dialog (acquire i s).ctl).ctl
      (render i (acquire i t).dialog (acquire i t).ctl).ctl ∧
    (render i (acquire i s).dialog (acquire i s).ctl).dialog =
      (render i (acquire i t).dialog (acquire i t).ctl).dialog ∧
    (acquire i s).events ++ (render i (acquire i s).dialog (acquire i s).ctl).events =
      (acquire i t).events ++ (render i (acquire i t).dialog (acquire i t).ctl).events
  rw [← a2, ← a3, ← r3]
  exact ⟨r1, r2, rfl⟩

theorem observe_eq_of_alike (inputs : List FrameInput) : ∀ (s t : Ctl),
    Alike s t → observe s inputs = observe t inputs := by
  induction inputs with
  | nil => intro s t _; rfl
  | cons i rest ih =>
    intro s t h
    obtain ⟨d1, d2, d3⟩ := alike_draw i s t h
    simp only [observe, d1.2.1, d2, d3, ih _ _ d1]

/-- Two reachable statics with the gate armed and the same key are told
apart by no sequence of frames. -/
theorem observe_eq_of_key_eq (P : FrameInput → Prop) (s t : Ctl) (inputs : List FrameInput)
    (hs : Reachable P s) (ht : Reachable P t)
    (as : s.draw_file_dialog = true) (at' : t.draw_file_dialog = true)
    (hk : s.license.key = t.license.key) :
    observe s inputs = observe t inputs := by
  have h1 := (gateInv_of_reachable P s hs).1 as
  have h2 := (gateInv_of_reachable P t ht).1 at'
  apply observe_eq_of_alike
  refine ⟨by rw [as, at'], by rw [h1, h2], hk, ?_⟩
  intro h
  rw [h1] at h
  cases h

/-! ## C13 -/

/-- C13: for any two statics with the file gate armed that are reachable by
frames in which a failed `open_license` leaves the key empty, the same
sequence of frame inputs yields, frame by frame, the same workflow state, the
same dialog flag and the same calls with the same arguments: in particular
the same key and bytes passed to `decrypt_fself` and the same path and bytes
written. -/
theorem C13_fresh_run_unaffected_by_prior_state (s t : Ctl) (inputs : List FrameInput)
    (hs : Reachable FailedLicenseKeyEmpty s) (ht : Reachable FailedLicenseKeyEmpty t)
    (as : s.draw_file_dialog = true) (at' : t.draw_file_dialog = true) :
    observe s inputs = observe t inputs := by
  have k1 := (keyInv_of_reachable s hs)
  have k2 := (keyInv_of_reachable t ht)
  have h1 : s.state ≠ State.DECRYPT := by rw [k1.1 as]; decide
  have h2 : t.state ≠ State.DECRYPT := by rw [k2.1 at']; decide
  exact observe_eq_of_key_eq FailedLicenseKeyEmpty s t inputs hs ht as at'
    (by rw [k1.2 h1, k2.2 h2])

/-- C13 for the initial statics and the statics after an acknowledged run
whose license did not load (three bytes are left in `fself`): a run on
`np.suprx` followed by OK is observed the same from both. -/
theorem C13_fresh_run_unaffected_by_prior_state_witness :
    (Reachable FailedLicenseKeyEmpty Ctl.init ∧
      Reachable FailedLicenseKeyEmpty after_failed_license_run ∧
      Ctl.init.draw_file_dialog = true ∧
      after_failed_license_run.draw_file_dialog = true ∧
      Ctl.init.fself ≠ after_failed_license_run.fself) ∧
    observe Ctl.init [pick_np_suprx, press_ok] =
      observe after_failed_license_run [pick_np_suprx, press_ok] :=
  have hreach : Reachable FailedLicenseKeyEmpty after_failed_license_run :=
    Reachable.frame press_ok _
      (Reachable.frame pick_eboot_bad_license _ Reachable.init (by decide)) (by decide)
  ⟨⟨Reachable.init, hreach, by decide, by decide, by decide⟩,
    C13_fresh_run_unaffected_by_prior_state Ctl.init after_failed_license_run
      [pick_np_suprx, press_ok] Reachable.init hreach (by decide) (by decide)⟩

/-! ## C14 -/

/-- C14 fails on the code at `eboot.self`, chosen in the initial statics with
a license that loads and a decryptor that returns three bytes.  The output
path is `cache/decrypted_self/eboot.self`, whose parent directory is
`cache/decrypted_self`; the one call of `create_directories` has the argument
`eboot`, the stem of the output path. -/
theorem C14_create_directories_gets_stem :
    (draw_self_decrypt_dialog pick_eboot_self Ctl.init).ctl.state = State.SUCCESS ∧
      (draw_self_decrypt_dialog pick_eboot_self Ctl.init).ctl.decrypted_path =
        ["cache", "decrypted_self", "eboot.self"] ∧
      Path.parent_path (draw_self_decrypt_dialog pick_eboot_self Ctl.init).ctl.decrypted_path =
        ["cache", "decrypted_self"] ∧
      created_directories (draw_self_decrypt_dialog pick_eboot_self Ctl.init).events =
        [["eboot"]] ∧
      created_directories (draw_self_decrypt_dialog pick_eboot_self Ctl.init).events ≠
        [Path.parent_path
          (draw_self_decrypt_dialog pick_eboot_self Ctl.init).ctl.decrypted_path] := by
  decide

/-! ## C15 -/

/-- The files written by the decrypt step on a non-empty decryptor output,
when `fs::create_directories` returns. -/
theorem render_decrypt_files (i : FrameInput) (d : Bool) (s : Ctl)
    (hst : s.state = State.DECRYPT) (hshown : i.popup = PopupResult.shown)
    (hout : i.decrypt_fself ≠ []) (hdir : i.persistence ≠ Persistence.directory_error) :
    files_written (render i d s).events =
      if i.outfile_ok then [((render i d s).ctl.decrypted_path, i.decrypt_fself)]
      else [] := by
  rcases s with ⟨sp, lp, t, dfd, st, fs, lic, sf, dp⟩
  simp only at hst
  subst hst
  cases hok : i.outfile_ok <;>
    simp [render, popup_body, decrypt_step, hshown, hout, hdir, files_written,
      List.filterMap, hok]

/-- C15 as stated fails at `eboot.self`, chosen in the initial statics with a
license that loads, when the decryptor returns three bytes and the write of
the output does not succeed: the frame ends in `SUCCESS`, not `FAIL`, and no
file has been written. -/
theorem C15_counterexample :
    (acquire pick_eboot_self_write_fails Ctl.init).ctl.state = State.DECRYPT ∧
      pick_eboot_self_write_fails.popup = PopupResult.shown ∧
      pick_eboot_self_write_fails.decrypt_fself ≠ [] ∧
      pick_eboot_self_write_fails.outfile_ok = false ∧
      (draw_self_decrypt_dialog pick_eboot_self_write_fails Ctl.init).ctl.state =
        State.SUCCESS ∧
      (draw_self_decrypt_dialog pick_eboot_self_write_fails Ctl.init).ctl.state ≠
        State.FAIL ∧
      files_written (draw_self_decrypt_dialog pick_eboot_self_write_fails Ctl.init).events
        = [] := by
  decide

/-- C15 (amended): in a frame whose decrypt step runs in state `DECRYPT` with
`decrypt_fself` returning a non-empty byte sequence and in which
`fs::create_directories` returns, the resulting state is `SUCCESS` whether
opening and writing the output file succeeds or fails; what `SUCCESS` implies
is that the one write of the output was issued, to the recorded artifact path
and with the decryptor's bytes, and the file has been written exactly when
that write succeeded. -/
theorem C15_success_does_not_check_the_write (s : Ctl) (i : FrameInput)
    (hst : (acquire i s).ctl.state = State.DECRYPT) (hshown : i.popup = PopupResult.shown)
    (hout : i.decrypt_fself ≠ []) (hdir : i.persistence ≠ Persistence.directory_error) :
    (draw_self_decrypt_dialog i s).ctl.state = State.SUCCESS ∧
      outfile_writes (draw_self_decrypt_dialog i s).events =
        [Event.outfile_write (draw_self_decrypt_dialog i s).ctl.decrypted_path
          i.decrypt_fself i.outfile_ok] ∧
      files_written (draw_self_decrypt_dialog i s).events =
        if i.outfile_ok then
          [((draw_self_decrypt_dialog i s).ctl.decrypted_path, i.decrypt_fself)]
        else [] := by
  obtain ⟨_, a2, a3, _⟩ := acquire_no_output i s
  obtain ⟨r1, _, r3, _⟩ :=
    render_decrypt_success i (acquire i s).dialog (acquire i s).ctl hst hshown hout hdir
  refine ⟨r1, ?_, ?_⟩
  · simpa [draw_self_decrypt_dialog, outfile_writes_append, a2] using r3
  · rw [show (draw_self_decrypt_dialog i s).events =
      (acquire i s).events ++ (render i (acquire i s).dialog (acquire i s).ctl).events
      from rfl, files_written_append, a3, List.nil_append]
    exact render_decrypt_files i (acquire i s).dialog (acquire i s).ctl hst hshown hout hdir

/-- C15 (amended) at `eboot.self` with a write that does not succeed. -/
theorem C15_success_does_not_check_the_write_witness :
    ((acquire pick_eboot_self_write_fails Ctl.init).ctl.state = State.DECRYPT ∧
      pick_eboot_self_write_fails.popup = PopupResult.shown ∧
      pick_eboot_self_write_fails.decrypt_fself ≠ [] ∧
      pick_eboot_self_write_fails.persistence = Persistence.write_failed) ∧
    (draw_self_decrypt_dialog pick_eboot_self_write_fails Ctl.init).ctl.state =
      State.SUCCESS ∧
    outfile_writes (draw_self_decrypt_dialog pick_eboot_self_write_fails Ctl.init).events =
      [Event.outfile_write
        (draw_self_decrypt_dialog pick_eboot_self_write_fails Ctl.init).ctl.decrypted_path
        pick_eboot_self_write_fails.decrypt_fself
        pick_eboot_self_write_fails.outfile_ok] :=
  ⟨by decide,
    (C15_success_does_not_check_the_write Ctl.init pick_eboot_self_write_fails
      (by decide) (by decide) (by decide) (by decide)).1,
    (C15_success_does_not_check_the_write Ctl.init pick_eboot_self_write_fails
      (by decide) (by decide) (by decide) (by decide)).2.1⟩

/-! ## The calls of the file picker -/

theorem acquire_picker_calls (i : FrameInput) (s : Ctl) :
    (acquire i s).events.count Event.open_file_self =
      if s.draw_file_dialog then 1 else 0 := by
  cases hd : s.draw_file_dialog <;> cases hr : i.self_result <;>
    cases he : i.is_fself_encrypted <;> cases ha : i.is_fself_app <;>
    cases hl : i.license_result <;> cases ho : i.open_license <;>
    simp [acquire, acquire_license, hd, hr, he, ha, hl, ho, List.count_cons]

theorem render_picker_calls (i : FrameInput) (d : Bool) (s : Ctl) :
    (render i d s).events.count Event.open_file_self = 0 := by
  rcases render_events i d s with h | ⟨_, _, h⟩
  · rw [h]; rfl
  · rw [h]
    by_cases hout : i.decrypt_fself = [] <;>
    by_cases hdir : i.persistence = Persistence.directory_error <;>
    simp [decrypt_step, hout, hdir, List.count_cons]

theorem draw_picker_calls (i : FrameInput) (s : Ctl) :
    (draw_self_decrypt_dialog i s).events.count Event.open_file_self =
      if s.draw_file_dialog then 1 else 0 := by
  simp only [draw_self_decrypt_dialog, List.count_append, acquire_picker_calls,
    render_picker_calls, Nat.add_zero]

theorem run_unacknowledged_picker (rest : List FrameInput) : ∀ (s : Ctl),
    s.draw_file_dialog = false → NoAck s rest →
    (run s rest).2.count Event.open_file_self = 0 := by
  induction rest with
  | nil => intro s _ _; rfl
  | cons j rest ih =>
    intro s hd hna
    obtain ⟨d1, _⟩ := draw_unacknowledged j s (Or.inl hd) hna.1
    simp only [run, List.count_append, draw_picker_calls, hd, ih _ d1 hna.2]
    rfl

/-! ## C16 -/

/-- C16: a frame calls the file picker if and only if `draw_file_dialog` is
set when the frame starts, and then exactly once; and after a frame in which
the picker returned success, no later frame calls it as long as the user has
not acknowledged a terminal state. -/
theorem C16_picker_fires_once_per_armed_cycle (s : Ctl) (i : FrameInput)
    (rest : List FrameInput)
    (harm : s.draw_file_dialog = true) (hpick : i.self_result = Result.SUCCESS)
    (hnoack : NoAck s (i :: rest)) :
    (∀ (u : Ctl) (j : FrameInput),
        (Event.open_file_self ∈ (draw_self_decrypt_dialog j u).events ↔
          u.draw_file_dialog = true) ∧
        (draw_self_decrypt_dialog j u).events.count Event.open_file_self ≤ 1) ∧
      (draw_self_decrypt_dialog i s).events.count Event.open_file_self = 1 ∧
      (draw_self_decrypt_dialog i s).ctl.draw_file_dialog = false ∧
      (run (draw_self_decrypt_dialog i s).ctl rest).1.draw_file_dialog = false ∧
      Event.open_file_self ∉ (run (draw_self_decrypt_dialog i s).ctl rest).2 := by
  obtain ⟨d1, _⟩ := draw_unacknowledged i s (Or.inr hpick) hnoack.1
  refine ⟨?_, ?_, d1, (run_unacknowledged rest _ d1 hnoack.2).1, ?_⟩
  · intro u j
    have h := draw_picker_calls j u
    cases hd : u.draw_file_dialog
    · have h0 : (draw_self_decrypt_dialog j u).events.count Event.open_file_self = 0 := by
        simpa [hd] using h
      constructor
      · simpa using List.count_eq_zero.1 h0
      · omega
    · have h1 : (draw_self_decrypt_dialog j u).events.count Event.open_file_self = 1 := by
        simpa [hd] using h
      constructor
      · simp only [iff_true]
        exact List.count_pos_iff.1 (by omega)
      · omega
  · simpa [harm] using draw_picker_calls i s
  · exact List.count_eq_zero.1 (run_unacknowledged_picker rest _ d1 hnoack.2)

/-- C16 at `game.self` from the initial statics, followed by two frames in
which the popup is shown and OK is not pressed. -/
theorem C16_picker_fires_once_per_armed_cycle_witness :
    (Ctl.init.draw_file_dialog = true ∧ pick_game_self.self_result = Result.SUCCESS ∧
      NoAck Ctl.init (pick_game_self :: [idle_frame, idle_frame])) ∧
    (draw_self_decrypt_dialog pick_game_self Ctl.init).events.count Event.open_file_self
      = 1 ∧
    Event.open_file_self ∉
      (run (draw_self_decrypt_dialog pick_game_self Ctl.init).ctl
        [idle_frame, idle_frame]).2 :=
  ⟨by decide,
    (C16_picker_fires_once_per_armed_cycle Ctl.init pick_game_self [idle_frame, idle_frame]
      (by decide) (by decide) (by decide)).2.1,
    (C16_picker_fires_once_per_armed_cycle Ctl.init pick_game_self [idle_frame, idle_frame]
      (by decide) (by decide) (by decide)).2.2.2.2⟩

/-! ## C17 -/

/-- C17: in every statics reachable by frames in which a failed `open_license`
leaves the key empty, whenever the file gate is armed the workflow state is
`UNDEFINED`, the recorded artifact path is empty and the license key is the
empty key; so every frame that acquires a file starts from such statics. -/
theorem C17_armed_gate_means_idle_and_clean (s : Ctl)
    (hreach : Reachable FailedLicenseKeyEmpty s) (harm : s.draw_file_dialog = true) :
    s.state = State.UNDEFINED ∧ s.decrypted_path = [] ∧
      s.license.key = SceNpDrmLicense.zero.key ∧
      ∀ i, acquires i s = true →
        s.state = State.UNDEFINED ∧ s.decrypted_path = [] ∧ s.license.key = [] := by
  obtain ⟨g1, _, g3⟩ := gateInv_of_reachable FailedLicenseKeyEmpty s hreach
  obtain ⟨k1, k2⟩ := keyInv_of_reachable s hreach
  have hst := g1 harm
  have hp : s.decrypted_path = [] := by
    by_contra hne
    rcases g3 hne with h | h | h <;>
      · rw [hst] at h
        cases h
  have hk : s.license.key = [] := k2 (by rw [hst]; decide)
  exact ⟨hst, hp, hk, fun _ _ => ⟨hst, hp, hk⟩⟩

/-- C17 after a licensed run that succeeded and was acknowledged. -/
theorem C17_armed_gate_means_idle_and_clean_witness :
    (Reachable FailedLicenseKeyEmpty after_licensed_run ∧
      after_licensed_run.draw_file_dialog = true) ∧
    after_licensed_run.state = State.UNDEFINED ∧ after_licensed_run.decrypted_path = [] ∧
    after_licensed_run.license.key = SceNpDrmLicense.zero.key :=
  have hreach : Reachable FailedLicenseKeyEmpty after_licensed_run :=
    Reachable.frame press_ok _
      (Reachable.frame pick_eboot_self _ Reachable.init (by decide)) (by decide)
  ⟨⟨hreach, by decide⟩,
    (C17_armed_gate_means_idle_and_clean after_licensed_run hreach (by decide)).1,
    (C17_armed_gate_means_idle_and_clean after_licensed_run hreach (by decide)).2.1,
    (C17_armed_gate_means_idle_and_clean after_licensed_run hreach (by decide)).2.2.1⟩

/-! ## C18 -/

/-- A frame from statics in `UNDEFINED` with the gate disarmed. -/
theorem draw_undefined_disarmed (j : FrameInput) (u : Ctl)
    (hst : u.state = State.UNDEFINED) (hd : u.draw_file_dialog = false) :
    (draw_self_decrypt_dialog j u).ctl = u ∧ (draw_self_decrypt_dialog j u).events = [] ∧
      (j.popup ≠ PopupResult.closed →
        (draw_self_decrypt_dialog j u).dialog = j.self_decrypt_dialog) := by
  rcases u with ⟨sp, lp, t, dfd, st, fs, lic, sf, dp⟩
  simp only at hst hd
  subst hst hd
  cases hp : j.popup <;> simp [draw_self_decrypt_dialog, acquire, render, popup_body, hp]

theorem run_undefined_disarmed (rest : List FrameInput) : ∀ (u : Ctl),
    u.state = State.UNDEFINED → u.draw_file_dialog = false →
    (run u rest).1 = u ∧ (run u rest).2 = [] := by
  induction rest with
  | nil => intro u _ _; simp [run]
  | cons j rest ih =>
    intro u hst hd
    obtain ⟨d1, d2, _⟩ := draw_undefined_disarmed j u hst hd
    obtain ⟨k1, k2⟩ := ih u hst hd
    simp [run, d1, d2, k1, k2]

/-- C18: statics with `state = UNDEFINED` and the file gate disarmed are a
fixed point of the frame function: for every input a frame leaves every
static unchanged and makes no call (and does not itself write the dialog
flag).  A frame in which, for an encrypted application package, the license
picker returns `CANCEL` or `ERROR` ends in such statics, and after it no
sequence of frames changes the statics, re-arms the file gate or makes a call. -/
theorem C18_license_cancel_reaches_fixed_point (s : Ctl) (i : FrameInput)
    (rest : List FrameInput)
    (harm : s.draw_file_dialog = true) (hpick : i.self_result = Result.SUCCESS)
    (henc : i.is_fself_encrypted = true) (happ : i.is_fself_app = true)
    (hlic : i.license_result = Result.CANCEL ∨ i.license_result = Result.ERROR) :
    (∀ (u : Ctl) (j : FrameInput),
        u.state = State.UNDEFINED → u.draw_file_dialog = false →
        (draw_self_decrypt_dialog j u).ctl = u ∧
          (draw_self_decrypt_dialog j u).events = [] ∧
          (j.popup ≠ PopupResult.closed →
            (draw_self_decrypt_dialog j u).dialog = j.self_decrypt_dialog)) ∧
      (draw_self_decrypt_dialog i s).ctl.state = State.UNDEFINED ∧
      (draw_self_decrypt_dialog i s).ctl.draw_file_dialog = false ∧
      (run (draw_self_decrypt_dialog i s).ctl rest).1 = (draw_self_decrypt_dialog i s).ctl ∧
      (run (draw_self_decrypt_dialog i s).ctl rest).1.draw_file_dialog = false ∧
      (run (draw_self_decrypt_dialog i s).ctl rest).2 = [] := by
  have h : (draw_self_decrypt_dialog i s).ctl.state = State.UNDEFINED ∧
      (draw_self_decrypt_dialog i s).ctl.draw_file_dialog = false := by
    rcases s with ⟨sp, lp, t, dfd, st, fs, lic, sf, dp⟩
    simp only at harm
    subst harm
    rcases hlic with hl | hl <;> cases hp : i.popup <;>
      simp [draw_self_decrypt_dialog, acquire, acquire_license, render, popup_body,
        hpick, henc, happ, hl, hp]
  obtain ⟨r1, r2⟩ := run_undefined_disarmed rest _ h.1 h.2
  refine ⟨fun u j => draw_undefined_disarmed j u, h.1, h.2, r1, ?_, r2⟩
  rw [r1]; exact h.2

/-- C18 at `eboot.self` with the license picker cancelled, followed by a frame
in which OK is pressed and a frame with a new attempt to pick a file. -/
theorem C18_license_cancel_reaches_fixed_point_witness :
    (Ctl.init.draw_file_dialog = true ∧
      pick_eboot_cancel_license.self_result = Result.SUCCESS ∧
      pick_eboot_cancel_license.is_fself_encrypted = true ∧
      pick_eboot_cancel_license.is_fself_app = true ∧
      pick_eboot_cancel_license.license_result = Result.CANCEL) ∧
    (draw_self_decrypt_dialog pick_eboot_cancel_license Ctl.init).ctl.state =
      State.UNDEFINED ∧
    (run (draw_self_decrypt_dialog pick_eboot_cancel_license Ctl.init).ctl
      [press_ok, pick_game_self]).1.draw_file_dialog = false ∧
    (run (draw_self_decrypt_dialog pick_eboot_cancel_license Ctl.init).ctl
      [press_ok, pick_game_self]).2 = [] :=
  ⟨by decide,
    (C18_license_cancel_reaches_fixed_point Ctl.init pick_eboot_cancel_license
      [press_ok, pick_game_self] (by decide) (by decide) (by decide) (by decide)
      (Or.inl (by decide))).2.1,
    (C18_license_cancel_reaches_fixed_point Ctl.init pick_eboot_cancel_license
      [press_ok, pick_game_self] (by decide) (by decide) (by decide) (by decide)
      (Or.inl (by decide))).2.2.2.2.1,
    (C18_license_cancel_reaches_fixed_point Ctl.init pick_eboot_cancel_license
      [press_ok, pick_game_self] (by decide) (by decide) (by decide) (by decide)
      (Or.inl (by decide))).2.2.2.2.2⟩

/-! ## C19 -/

/-- A frame changes the recorded artifact path only by clearing it or in the
decrypt step on a non-empty decryptor output. -/
theorem draw_artifact_change (i : FrameInput) (s : Ctl)
    (h : (draw_self_decrypt_dialog i s).ctl.decrypted_path ≠ s.decrypted_path) :
    (draw_self_decrypt_dialog i s).ctl.decrypted_path = [] ∨
      ((acquire i s).ctl.state = State.DECRYPT ∧ i.popup = PopupResult.shown ∧
        i.decrypt_fself ≠ [] ∧
        (draw_self_decrypt_dialog i s).ctl.decrypted_path =
          output_path i.cache_path (acquire i s).ctl.self_file) := by
  have ha := (acquire_calls i s).2
  have hr : (render i (acquire i s).dialog (acquire i s).ctl).ctl.decrypted_path ≠
      (acquire i s).ctl.decrypted_path := by rw [ha]; exact h
  show (render i (acquire i s).dialog (acquire i s).ctl).ctl.decrypted_path = [] ∨
    ((acquire i s).ctl.state = State.DECRYPT ∧ i.popup = PopupResult.shown ∧
      i.decrypt_fself ≠ [] ∧
      (render i (acquire i s).dialog (acquire i s).ctl).ctl.decrypted_path =
        output_path i.cache_path (acquire i s).ctl.self_file)
  generalize (acquire i s).dialog = d at hr ⊢
  generalize (acquire i s).ctl = a at hr ⊢
  rcases a with ⟨sp, lp, t, dfd, st, fs, lic, sf, dp⟩
  cases hp : i.popup <;> cases st <;> cases hok : i.ok_button <;>
    by_cases hout : i.decrypt_fself = [] <;>
    by_cases hdir : i.persistence = Persistence.directory_error <;>
    simp_all [render, popup_body, decrypt_step]

/-- C19 as stated fails at `eboot.self`, chosen in the initial statics with a
license that loads and a decryptor that returns three bytes, when
`fs::create_directories` throws: the frame ends in `DECRYPT` with the artifact
path `cache/decrypted_self/eboot.self` recorded; and when the decryptor then
returns nothing in the next frame, the state is `FAIL` with that path still
recorded. -/
theorem C19_counterexample :
    Reachable (fun _ => True)
        (draw_self_decrypt_dialog pick_eboot_self_directory_error Ctl.init).ctl ∧
      (draw_self_decrypt_dialog pick_eboot_self_directory_error Ctl.init).ctl.state =
        State.DECRYPT ∧
      (draw_self_decrypt_dialog pick_eboot_self_directory_error Ctl.init).ctl.decrypted_path =
        ["cache", "decrypted_self", "eboot.self"] ∧
      (draw_self_decrypt_dialog idle_frame
        (draw_self_decrypt_dialog pick_eboot_self_directory_error Ctl.init).ctl).ctl.state =
        State.FAIL ∧
      (draw_self_decrypt_dialog idle_frame
        (draw_self_decrypt_dialog pick_eboot_self_directory_error
          Ctl.init).ctl).ctl.decrypted_path = ["cache", "decrypted_self", "eboot.self"] :=
  ⟨Reachable.frame _ _ Reachable.init trivial, by decide, by decide, by decide, by decide⟩

/-- C19 (amended): in every statics reachable by frames in which
`fs::create_directories` does not throw, the recorded artifact path is
non-empty if and only if the workflow state is `SUCCESS`, so it is empty in
`UNDEFINED`, `DECRYPT`, `NO_ENCRYPTED` and `FAIL`; and such a frame changes it
only by clearing it or, in the successful branch of the decrypt step, by
setting it to the output path.  In every reachable statics whatsoever,
`SUCCESS` has a recorded artifact path and `UNDEFINED` and `NO_ENCRYPTED` have
none. -/
theorem C19_artifact_recorded_iff_success (s : Ctl) (hreach : Reachable NoThrow s) :
    (s.decrypted_path ≠ [] ↔ s.state = State.SUCCESS) ∧
      (s.state ≠ State.SUCCESS → s.decrypted_path = []) ∧
      (∀ i, NoThrow i →
        (draw_self_decrypt_dialog i s).ctl.decrypted_path ≠ s.decrypted_path →
        (draw_self_decrypt_dialog i s).ctl.decrypted_path = [] ∨
          ((acquire i s).ctl.state = State.DECRYPT ∧ i.popup = PopupResult.shown ∧
            i.decrypt_fself ≠ [] ∧
            (draw_self_decrypt_dialog i s).ctl.state = State.SUCCESS ∧
            (draw_self_decrypt_dialog i s).ctl.decrypted_path =
              output_path i.cache_path (acquire i s).ctl.self_file)) ∧
      ∀ (P : FrameInput → Prop) (t : Ctl), Reachable P t →
        (t.state = State.SUCCESS → t.decrypted_path ≠ []) ∧
        (t.state = State.UNDEFINED ∨ t.state = State.NO_ENCRYPTED →
          t.decrypted_path = []) := by
  obtain ⟨_, g2⟩ := artifactInv_of_reachable s hreach
  refine ⟨g2, ?_, ?_, ?_⟩
  · intro hne
    by_contra hp
    exact hne (g2.1 hp)
  · intro i hi hch
    rcases draw_artifact_change i s hch with h | ⟨h1, h2, h3, h4⟩
    · exact Or.inl h
    · exact Or.inr ⟨h1, h2, h3,
        (render_decrypt_success i (acquire i s).dialog (acquire i s).ctl h1 h2 h3 hi).1, h4⟩
  · intro P t ht
    obtain ⟨_, k2, k3⟩ := gateInv_of_reachable P t ht
    refine ⟨k2, ?_⟩
    intro hst
    by_contra hne
    rcases k3 hne with h | h | h <;> rcases hst with h' | h' <;>
      · rw [h'] at h
        cases h

/-- C19 (amended) in a `FAIL` that follows an earlier successful run. -/
theorem C19_artifact_recorded_iff_success_witness :
    (Reachable NoThrow fail_after_success ∧
      (draw_self_decrypt_dialog pick_eboot_self Ctl.init).ctl.state = State.SUCCESS ∧
      fail_after_success.state = State.FAIL) ∧
    fail_after_success.decrypted_path = [] :=
  have hreach : Reachable NoThrow fail_after_success :=
    Reachable.frame pick_eboot_self_decrypt_fails _
      (Reachable.frame press_ok _
        (Reachable.frame pick_eboot_self _ Reachable.init (by decide)) (by decide))
      (by decide)
  ⟨⟨hreach, by decide, by decide⟩,
    (C19_artifact_recorded_iff_success fail_after_success hreach).2.1 (by decide)⟩

end Vita3K
